import Mathlib

/-!
Shallow embedding of the rvcpp RV32 interpreter core: the CSR/privilege/trap
engine (`rvcpp/rv_csr.cpp`), the Sv32 page walker
(`rvcpp/include/rv_core.h`), and the instruction-step function
(`rvcpp/rv_core.cpp`), together with theorems checking the natural-language
specification against this embedding.

Machine integers are modelled as `Nat` with explicit wrap-around (`% 2^32`)
and explicit sign handling (`Int` with two's-complement conversion) exactly at
the places where the C++ `uint32_t`/`int32_t` arithmetic wraps or is signed.
-/

/-- 2^32, the modulus of all 32-bit machine arithmetic. -/
def M32 : Nat := 4294967296

/-- Wrapping 32-bit addition (C `uint32_t` addition). -/
def wadd (a b : Nat) : Nat := (a + b) % M32

/-- Wrapping 32-bit subtraction (C `uint32_t` subtraction). -/
def wsub (a b : Nat) : Nat := (a + M32 - b % M32) % M32

/-- Wrapping 32-bit negation (C unary minus on `uint32_t`). -/
def wneg (a : Nat) : Nat := (M32 - a % M32) % M32

/-- 32-bit complement (C `~x` on `uint32_t`). -/
def compl32 (a : Nat) : Nat := 4294967295 ^^^ (a % M32)

/-- Two's-complement read of a 32-bit value (C cast `(sx_t)x`). -/
def toS (x : Nat) : Int := if x < 2147483648 then (x : Int) else (x : Int) - 4294967296

/-- Truncation of an integer to its 32-bit unsigned representation. -/
def toU (i : Int) : Nat := (i % 4294967296).toNat

/-- Arithmetic (sign-propagating) right shift of a 32-bit value, C `(sx_t)x >> k`. -/
def asr (x k : Nat) : Nat :=
  (x % M32) >>> k + (if 2147483648 ≤ x % M32 then M32 - 2 ^ (32 - k) else 0)

/-- `rv_types.h` `BITS_UPTO(msb)`: mask of bits `msb..0` (`~((-1u << msb) << 1)`). -/
def BITS_UPTO (msb : Nat) : Nat := 2 ^ (msb + 1) - 1

/-- `rv_types.h` `BITRANGE(msb, lsb)`. -/
def BITRANGE (msb lsb : Nat) : Nat := BITS_UPTO (msb - lsb) <<< lsb

/-- `rv_types.h` `GETBITS(x, msb, lsb)`. -/
def GETBITS (x msb lsb : Nat) : Nat := (x &&& BITRANGE msb lsb) >>> lsb

/-- `rv_types.h` `GETBIT(x, bit)`. -/
def GETBIT (x bit : Nat) : Nat := (x >>> bit) &&& 1

/-!
Named architectural constants.

Modelled from the spec: the repository's `include/encoding/rv_csr.h` (named
constants for CSR addresses, status/interrupt mask bits, cause codes,
page-table-entry bit flags and privilege levels, per spec §2 item 1) is not
among the provided sources, so the constants below carry the standard RV32
encoding values that the spec's §4.3/§6 tables and glossary assign to them.
-/

def PRV_U : Nat := 0
def PRV_S : Nat := 1
def PRV_M : Nat := 3

def MSTATUS_MIE   : Nat := 0x8
def MSTATUS_MPIE  : Nat := 0x80
def MSTATUS_MPP   : Nat := 0x1800
def MSTATUS_MPRV  : Nat := 0x20000
def MSTATUS_TVM   : Nat := 0x100000
def MSTATUS_TW    : Nat := 0x200000
def MSTATUS_TSR   : Nat := 0x400000

def SSTATUS_SIE   : Nat := 0x2
def SSTATUS_SPIE  : Nat := 0x20
def SSTATUS_SPP   : Nat := 0x100
def SSTATUS_SUM   : Nat := 0x40000
def SSTATUS_MXR   : Nat := 0x80000

def MIP_SSIP : Nat := 0x2
def MIP_MSIP : Nat := 0x8
def MIP_STIP : Nat := 0x20
def MIP_MTIP : Nat := 0x80
def MIP_SEIP : Nat := 0x200
def MIP_MEIP : Nat := 0x800

def PTE_V : Nat := 0x01
def PTE_R : Nat := 0x02
def PTE_W : Nat := 0x04
def PTE_X : Nat := 0x08
def PTE_U : Nat := 0x10
def PTE_A : Nat := 0x40
def PTE_D : Nat := 0x80

def SATP32_MODE : Nat := 0x80000000
def SATP32_ASID : Nat := 0x7fc00000
def SATP32_PPN  : Nat := 0x003fffff

def CSR_MSTATUS    : Nat := 0x300
def CSR_MISA       : Nat := 0x301
def CSR_MEDELEG    : Nat := 0x302
def CSR_MIDELEG    : Nat := 0x303
def CSR_MIE        : Nat := 0x304
def CSR_MTVEC      : Nat := 0x305
def CSR_MCOUNTEREN : Nat := 0x306
def CSR_MSCRATCH   : Nat := 0x340
def CSR_MEPC       : Nat := 0x341
def CSR_MCAUSE     : Nat := 0x342
def CSR_MTVAL      : Nat := 0x343
def CSR_MIP        : Nat := 0x344
def CSR_SSTATUS    : Nat := 0x100
def CSR_SIE        : Nat := 0x104
def CSR_STVEC      : Nat := 0x105
def CSR_SCOUNTEREN : Nat := 0x106
def CSR_SSCRATCH   : Nat := 0x140
def CSR_SEPC       : Nat := 0x141
def CSR_SCAUSE     : Nat := 0x142
def CSR_STVAL      : Nat := 0x143
def CSR_SIP        : Nat := 0x144
def CSR_SATP       : Nat := 0x180
def CSR_MCYCLE     : Nat := 0xb00
def CSR_MINSTRET   : Nat := 0xb02
def CSR_MCYCLEH    : Nat := 0xb80
def CSR_MINSTRETH  : Nat := 0xb82
def CSR_CYCLE      : Nat := 0xc00
def CSR_INSTRET    : Nat := 0xc02
def CSR_CYCLEH     : Nat := 0xc80
def CSR_INSTRETH   : Nat := 0xc82
def CSR_MVENDORID  : Nat := 0xf11
def CSR_MARCHID    : Nat := 0xf12
def CSR_MIMPID     : Nat := 0xf13
def CSR_MHARTID    : Nat := 0xf14

def XCAUSE_INSTR_FAULT     : Nat := 1
def XCAUSE_INSTR_ILLEGAL   : Nat := 2
def XCAUSE_EBREAK          : Nat := 3
def XCAUSE_LOAD_ALIGN      : Nat := 4
def XCAUSE_LOAD_FAULT      : Nat := 5
def XCAUSE_STORE_ALIGN     : Nat := 6
def XCAUSE_STORE_FAULT     : Nat := 7
def XCAUSE_ECALL_U         : Nat := 8
def XCAUSE_INSTR_PAGEFAULT : Nat := 12
def XCAUSE_LOAD_PAGEFAULT  : Nat := 13
def XCAUSE_STORE_PAGEFAULT : Nat := 15

/-!
Physical memory.  The core is generic over a byte-addressable bus
(`MemBase32`, spec §4.1: 8/16/32-bit accesses, reads return an optional
value, writes return accepted/refused).  We model a word-backed memory in the
style of `FlatMem32`: a partial map from word indices (address divided by 4)
to 32-bit words, plus a write-accept predicate per word; sub-word accesses
read-modify-write the containing word exactly as the hart-local fast path in
`include/rv_core.h` does.  The architectural layer only issues aligned
accesses (alignment is checked before the bus is touched).
-/

structure Mem where
  words : Nat → Option Nat
  wok : Nat → Bool

namespace Mem

def r8 (m : Mem) (a : Nat) : Option Nat :=
  (m.words (a / 4)).map (fun w => (w >>> (8 * (a &&& 3))) &&& 0xff)

def r16 (m : Mem) (a : Nat) : Option Nat :=
  (m.words (a / 4)).map (fun w => (w >>> (8 * (a &&& 2))) &&& 0xffff)

def r32 (m : Mem) (a : Nat) : Option Nat := m.words (a / 4)

def w32 (m : Mem) (a v : Nat) : Option Mem :=
  if m.wok (a / 4) then
    some { m with words := fun i => if i = a / 4 then some (v % M32) else m.words i }
  else
    none

def w16 (m : Mem) (a v : Nat) : Option Mem :=
  if m.wok (a / 4) then
    match m.words (a / 4) with
    | some w =>
      let sh := 8 * (a &&& 2)
      let w' := (w &&& compl32 (0xffff <<< sh)) ||| ((v % 65536) <<< sh)
      some { m with words := fun i => if i = a / 4 then some w' else m.words i }
    | none => none
  else
    none

def w8 (m : Mem) (a v : Nat) : Option Mem :=
  if m.wok (a / 4) then
    match m.words (a / 4) with
    | some w =>
      let sh := 8 * (a &&& 3)
      let w' := (w &&& compl32 (0xff <<< sh)) ||| ((v % 256) <<< sh)
      some { m with words := fun i => if i = a / 4 then some w' else m.words i }
    | none => none
  else
    none

end Mem

/-- CSR write ops (`rv_csr.h` enum). -/
def WRITE : Nat := 0
def WRITE_SET : Nat := 1
def WRITE_CLEAR : Nat := 2

/-- The CSR/privilege/trap engine state (`class RVCSR`, newer generation:
`xie`/`xip` plus latched IRQ lines). -/
structure RVCSR where
  priv : Nat
  irq_t : Bool
  irq_s : Bool
  irq_e : Bool
  xstatus : Nat
  xie : Nat
  xip : Nat
  mtvec : Nat
  mtval : Nat
  mscratch : Nat
  mepc : Nat
  mcause : Nat
  medeleg : Nat
  mideleg : Nat
  mcounteren : Nat
  mcycle : Nat
  mcycleh : Nat
  minstret : Nat
  minstreth : Nat
  stvec : Nat
  stval : Nat
  scounteren : Nat
  sscratch : Nat
  sepc : Nat
  scause : Nat
  satp : Nat

/-- Reset state (`RVCSR::RVCSR()`). -/
def RVCSR.reset : RVCSR where
  priv := 3
  irq_t := false
  irq_s := false
  irq_e := false
  xstatus := 0
  xie := 0
  xip := 0
  mtvec := 0
  mtval := 0
  mscratch := 0
  mepc := 0
  mcause := 0
  medeleg := 0
  mideleg := 0
  mcounteren := 0
  mcycle := 0
  mcycleh := 0
  minstret := 0
  minstreth := 0
  stvec := 0
  stval := 0
  scounteren := 0
  sscratch := 0
  sepc := 0
  scause := 0
  satp := 0

def SSTATUS_MASK : Nat :=
  SSTATUS_SIE ||| SSTATUS_SPIE ||| SSTATUS_SPP ||| SSTATUS_SUM ||| SSTATUS_MXR

def MSTATUS_MASK : Nat :=
  SSTATUS_MASK ||| MSTATUS_MIE ||| MSTATUS_MPIE ||| MSTATUS_MPP |||
  MSTATUS_MPRV ||| MSTATUS_TVM ||| MSTATUS_TW ||| MSTATUS_TSR

def SIP_MASK : Nat := MIP_SSIP ||| MIP_STIP ||| MIP_SEIP

def ALL_MIP_BITS : Nat := SIP_MASK ||| MIP_MSIP ||| MIP_MTIP ||| MIP_MEIP

def MIP_R_MASK : Nat := ALL_MIP_BITS
def MIP_W_MASK : Nat := SIP_MASK
def MIE_R_MASK : Nat := ALL_MIP_BITS
def MIE_W_MASK : Nat := ALL_MIP_BITS

namespace RVCSR

/-- `RVCSR::get_effective_xip`. -/
def get_effective_xip (s : RVCSR) : Nat :=
  s.xip |||
    (if s.irq_s then MIP_MSIP ||| MIP_SSIP else 0) |||
    (if s.irq_t then MIP_MTIP ||| MIP_STIP else 0) |||
    (if s.irq_e then MIP_MEIP ||| MIP_SEIP else 0)

/-- `RVCSR::get_true_priv`. -/
def get_true_priv (s : RVCSR) : Nat := s.priv

/-- `RVCSR::get_effective_priv_ls`. -/
def get_effective_priv_ls (s : RVCSR) : Nat :=
  if s.xstatus &&& MSTATUS_MPRV ≠ 0 then GETBITS s.xstatus 12 11 else s.priv

/-- `RVCSR::translation_enabled_fetch`. -/
def translation_enabled_fetch (s : RVCSR) : Bool :=
  s.get_true_priv ≠ PRV_M && s.satp &&& SATP32_MODE ≠ 0

/-- `RVCSR::translation_enabled_ls`. -/
def translation_enabled_ls (s : RVCSR) : Bool :=
  s.get_effective_priv_ls ≠ PRV_M && s.satp &&& SATP32_MODE ≠ 0

/-- `RVCSR::get_atp`. -/
def get_atp (s : RVCSR) : Nat := (s.satp &&& SATP32_PPN) <<< 12

/-- `RVCSR::permit_sfence_vma`. -/
def permit_sfence_vma (s : RVCSR) : Bool :=
  (s.priv = PRV_S && s.xstatus &&& MSTATUS_TVM = 0) || s.priv = PRV_M

/-- `RVCSR::pte_permissions_ok`. -/
def pte_permissions_ok (s : RVCSR) (pte required_permissions : Nat) : Bool :=
  let effective_priv :=
    if required_permissions &&& PTE_X ≠ 0 then s.get_true_priv else s.get_effective_priv_ls
  if pte &&& PTE_U ≠ 0 && effective_priv = PRV_S && s.xstatus &&& SSTATUS_SUM = 0 then
    false
  else if pte &&& PTE_U = 0 && effective_priv = PRV_U then
    false
  else
    let permissions := pte &&& (PTE_R ||| PTE_W ||| PTE_X)
    let permissions :=
      if s.xstatus &&& SSTATUS_MXR ≠ 0 && permissions &&& PTE_X ≠ 0 then
        permissions ||| PTE_R
      else permissions
    if compl32 permissions &&& required_permissions ≠ 0 then false else true

/-- `RVCSR::step_counters`. -/
def step_counters (s : RVCSR) : RVCSR :=
  let mcycle_next := s.mcycleh * 4294967296 + s.mcycle + 1
  let minstret_next := s.minstreth * 4294967296 + s.minstret + 1
  { s with
    mcycle := mcycle_next % M32
    mcycleh := (mcycle_next >>> 32) % M32
    minstret := minstret_next % M32
    minstreth := (minstret_next >>> 32) % M32 }

/-- `RVCSR::read` (the unused `side_effect` argument is dropped). Returns
`none` on permission/decode fail. -/
def read (s : RVCSR) (addr : Nat) : Option Nat :=
  if addr ≥ 4096 || GETBITS addr 9 8 > s.priv then
    none
  else
    let permit_cycle :=
      (s.priv ≥ PRV_M || s.mcounteren &&& 0x1 ≠ 0) &&
      (s.priv ≥ PRV_S || s.scounteren &&& 0x1 ≠ 0)
    let permit_instret :=
      (s.priv ≥ PRV_M || s.mcounteren &&& 0x4 ≠ 0) &&
      (s.priv ≥ PRV_S || s.scounteren &&& 0x4 ≠ 0)
    let permit_satp := s.priv ≥ PRV_M || s.xstatus &&& MSTATUS_TVM = 0
    if addr = CSR_MISA then some 0x40101105
    else if addr = CSR_MHARTID then some 0
    else if addr = CSR_MARCHID then some 0
    else if addr = CSR_MIMPID then some 0
    else if addr = CSR_MVENDORID then some 0
    else if addr = CSR_MSTATUS then some (s.xstatus &&& MSTATUS_MASK)
    else if addr = CSR_MIE then some (s.xie &&& MIE_R_MASK)
    else if addr = CSR_MIP then some (s.get_effective_xip &&& MIP_R_MASK)
    else if addr = CSR_MTVEC then some s.mtvec
    else if addr = CSR_MSCRATCH then some s.mscratch
    else if addr = CSR_MEPC then some s.mepc
    else if addr = CSR_MCAUSE then some s.mcause
    else if addr = CSR_MTVAL then some s.mtval
    else if addr = CSR_MEDELEG then some s.medeleg
    else if addr = CSR_MIDELEG then some s.mideleg
    else if addr = CSR_MCOUNTEREN then some s.mcounteren
    else if addr = CSR_MCYCLE then some s.mcycle
    else if addr = CSR_MCYCLEH then some s.mcycleh
    else if addr = CSR_MINSTRET then some s.minstreth
    else if addr = CSR_MINSTRETH then some s.minstreth
    else if addr = CSR_SSTATUS then some (s.xstatus &&& SSTATUS_MASK)
    else if addr = CSR_SIE then some (s.xie &&& SIP_MASK)
    else if addr = CSR_SIP then some (s.get_effective_xip &&& SIP_MASK &&& s.mideleg)
    else if addr = CSR_STVEC then some s.stvec
    else if addr = CSR_SCOUNTEREN then some s.scounteren
    else if addr = CSR_SSCRATCH then some s.sscratch
    else if addr = CSR_SEPC then some s.sepc
    else if addr = CSR_SCAUSE then some s.scause
    else if addr = CSR_STVAL then some s.stval
    else if addr = CSR_SATP then (if permit_satp then some s.satp else none)
    else if addr = CSR_CYCLE then (if permit_cycle then some s.mcycle else none)
    else if addr = CSR_CYCLEH then (if permit_cycle then some s.mcycleh else none)
    else if addr = CSR_INSTRET then (if permit_instret then some s.minstreth else none)
    else if addr = CSR_INSTRETH then (if permit_instret then some s.minstreth else none)
    else none

/-- `RVCSR::write`. The C++ mutates in place and returns a success flag; here
a successful write returns the updated state and a failure returns `none`. -/
def write (s : RVCSR) (addr data op : Nat) : Option RVCSR :=
  if addr ≥ 4096 || GETBITS addr 9 8 > s.priv || GETBITS addr 11 10 = 0x3 then
    none
  else
    let rmw : Option Nat :=
      if op = WRITE_CLEAR || op = WRITE_SET then
        match s.read addr with
        | none => none
        | some rdata =>
          if op = WRITE_CLEAR then some (rdata &&& compl32 data)
          else some (rdata ||| data)
      else some data
    match rmw with
    | none => none
    | some data =>
      let permit_satp := s.priv ≥ PRV_M || s.xstatus &&& MSTATUS_TVM = 0
      let sip_mask_deleg := SIP_MASK &&& s.mideleg
      if addr = CSR_MISA then some s
      else if addr = CSR_MHARTID then some s
      else if addr = CSR_MARCHID then some s
      else if addr = CSR_MIMPID then some s
      else if addr = CSR_MVENDORID then some s
      else if addr = CSR_MSTATUS then
        some { s with xstatus := (data &&& MSTATUS_MASK) ||| (s.xstatus &&& compl32 MSTATUS_MASK) }
      else if addr = CSR_MIE then
        some { s with xie := (data &&& MIE_W_MASK) ||| (s.xie &&& compl32 MIE_W_MASK) }
      else if addr = CSR_MIP then
        some { s with xip := (data &&& MIP_W_MASK) ||| (s.xip &&& compl32 MIP_W_MASK) }
      else if addr = CSR_MTVEC then some { s with mtvec := data &&& 0xfffffffd }
      else if addr = CSR_MSCRATCH then some { s with mscratch := data }
      else if addr = CSR_MEPC then some { s with mepc := data &&& 0xfffffffe }
      else if addr = CSR_MCAUSE then some { s with mcause := data &&& 0x800000ff }
      else if addr = CSR_MTVAL then some { s with mtval := data }
      else if addr = CSR_MEDELEG then some { s with medeleg := data }
      else if addr = CSR_MIDELEG then some { s with mideleg := data }
      else if addr = CSR_MCOUNTEREN then some { s with mcounteren := data &&& 0x7 }
      else if addr = CSR_MCYCLE then some { s with mcycle := data }
      else if addr = CSR_MCYCLEH then some { s with mcycleh := data }
      else if addr = CSR_MINSTRET then some { s with minstret := data }
      else if addr = CSR_MINSTRETH then some { s with minstreth := data }
      else if addr = CSR_SSTATUS then
        some { s with xstatus := (data &&& SSTATUS_MASK) ||| (s.xstatus &&& compl32 SSTATUS_MASK) }
      else if addr = CSR_SIE then
        some { s with xie := (data &&& SIP_MASK) ||| (s.xie &&& compl32 SIP_MASK) }
      else if addr = CSR_SIP then
        some { s with xip := (data &&& sip_mask_deleg) ||| (s.xip &&& compl32 sip_mask_deleg) }
      else if addr = CSR_STVEC then some { s with stvec := data &&& 0xfffffffd }
      else if addr = CSR_SCOUNTEREN then some { s with scounteren := data &&& 0x7 }
      else if addr = CSR_SSCRATCH then some { s with sscratch := data }
      else if addr = CSR_SEPC then some { s with sepc := data &&& 0xfffffffe }
      else if addr = CSR_SCAUSE then some { s with scause := data &&& 0x800000ff }
      else if addr = CSR_STVAL then some { s with stval := data }
      else if addr = CSR_SATP then
        (if permit_satp then some { s with satp := data &&& compl32 SATP32_ASID } else none)
      else none

/-- Helper for `ctz`: scan at most `fuel` low-order bits. -/
def ctzFuel : Nat → Nat → Nat
  | _, 0 => 0
  | n, fuel + 1 => if n % 2 = 1 then 0 else 1 + ctzFuel (n / 2) fuel

/-- Count trailing zeros of a 32-bit value: index of the lowest set bit
(`__builtin_ctz`; the C++ only calls it on nonzero arguments). -/
def ctz (n : Nat) : Nat := ctzFuel n 32

/-- `RVCSR::trap_enter_at_priv`: update trap state for entry at
`target_priv`, return the trap target pc. -/
def trap_enter_at_priv (s : RVCSR) (xcause xepc target_priv : Nat) : RVCSR × Nat :=
  if target_priv = PRV_M then
    let s := { s with xstatus := (s.xstatus &&& compl32 MSTATUS_MPP) ||| (s.priv <<< 11), priv := PRV_M }
    let s :=
      if s.xstatus &&& MSTATUS_MIE ≠ 0 then { s with xstatus := s.xstatus ||| MSTATUS_MPIE } else s
    let s := { s with xstatus := s.xstatus &&& compl32 MSTATUS_MIE }
    let s := { s with mcause := xcause, mepc := xepc }
    if s.mtvec &&& 0x1 ≠ 0 && xcause &&& 0x80000000 ≠ 0 then
      (s, wadd (s.mtvec &&& 0xfffffffe) (4 * (xcause &&& compl32 0x80000000)) % M32)
    else
      (s, s.mtvec &&& 0xfffffffe)
  else
    let s := { s with xstatus := (s.xstatus &&& compl32 SSTATUS_SPP) ||| (s.priv <<< 8), priv := PRV_S }
    let s :=
      if s.xstatus &&& SSTATUS_SIE ≠ 0 then { s with xstatus := s.xstatus ||| SSTATUS_SPIE } else s
    let s := { s with xstatus := s.xstatus &&& compl32 SSTATUS_SIE }
    let s := { s with scause := xcause, sepc := xepc }
    if s.stvec &&& 0x1 ≠ 0 && xcause &&& 0x80000000 ≠ 0 then
      (s, wadd (s.stvec &&& 0xfffffffe) (4 * (xcause &&& compl32 0x80000000)) % M32)
    else
      (s, s.stvec &&& 0xfffffffe)

/-- `RVCSR::trap_enter_exception`. -/
def trap_enter_exception (s : RVCSR) (xcause xepc : Nat) : RVCSR × Nat :=
  let target_priv := if s.medeleg &&& (1 <<< xcause) ≠ 0 then PRV_S else PRV_M
  let target_priv := if target_priv < s.priv then s.priv else target_priv
  s.trap_enter_at_priv xcause xepc target_priv

/-- `RVCSR::trap_check_enter_irq`: take a pending eligible IRQ if there is
one, recording `xepc`; returns the updated state and trap target pc. -/
def trap_check_enter_irq (s : RVCSR) (xepc : Nat) : Option (RVCSR × Nat) :=
  let m_targeted_irqs := s.get_effective_xip &&& s.xie &&& MIP_R_MASK &&& compl32 s.mideleg
  let s_targeted_irqs := s.get_effective_xip &&& s.xie &&& SIP_MASK &&& s.mideleg
  let take_m_irq := m_targeted_irqs ≠ 0 && (s.xstatus &&& MSTATUS_MIE ≠ 0 || s.priv < PRV_M)
  let take_s_irq := s_targeted_irqs ≠ 0 &&
    (s.xstatus &&& SSTATUS_SIE ≠ 0 || s.priv < PRV_S) && s.priv ≤ PRV_S
  if take_m_irq then
    some (s.trap_enter_at_priv (0x80000000 ||| ctz m_targeted_irqs) xepc PRV_M)
  else if take_s_irq then
    some (s.trap_enter_at_priv (0x80000000 ||| ctz s_targeted_irqs) xepc PRV_S)
  else
    none

/-- `RVCSR::trap_mret`: update trap state, return the new state and `mepc`. -/
def trap_mret (s : RVCSR) : RVCSR × Nat :=
  let s := { s with priv := GETBITS s.xstatus 12 11 }
  let s := { s with xstatus := s.xstatus &&& compl32 MSTATUS_MPP }
  let s := if s.priv ≠ PRV_M then { s with xstatus := s.xstatus &&& compl32 MSTATUS_MPRV } else s
  let s :=
    if s.xstatus &&& MSTATUS_MPIE ≠ 0 then { s with xstatus := s.xstatus ||| MSTATUS_MIE } else s
  let s := { s with xstatus := s.xstatus &&& compl32 MSTATUS_MPIE }
  (s, s.mepc)

/-- `RVCSR::trap_sret`: either trap (TSR in S-mode) or return to `sepc`. -/
def trap_sret (s : RVCSR) (pc : Nat) : RVCSR × Nat :=
  if s.xstatus &&& MSTATUS_TSR ≠ 0 && s.priv = PRV_S then
    s.trap_enter_exception XCAUSE_INSTR_ILLEGAL pc
  else
    let s := { s with priv := GETBIT s.xstatus 8 }
    let s := { s with xstatus := s.xstatus &&& compl32 SSTATUS_SPP }
    let s :=
      if s.xstatus &&& SSTATUS_SPIE ≠ 0 then { s with xstatus := s.xstatus ||| SSTATUS_SIE } else s
    let s := { s with xstatus := s.xstatus &&& compl32 SSTATUS_SPIE }
    let s := { s with xstatus := s.xstatus &&& compl32 MSTATUS_MPRV }
    (s, s.sepc)

/-- `RVCSR::trap_set_xtval`. -/
def trap_set_xtval (s : RVCSR) (xtval : Nat) : RVCSR :=
  if s.priv = PRV_S then { s with stval := xtval } else { s with mtval := xtval }

end RVCSR

/-!
Instruction-side decoding helpers (`rv_core.cpp` statics) and the
bit-pattern matchers.

Modelled from the spec: the repository's `include/encoding/rv_opcodes.h`
(a table of `(mask, bits)` pairs per mnemonic; spec §4.2: "a bit-pattern
match `(instr & mask) == bits` against a table indexed by mnemonic; the
table encodes the full set of mandated fixed bits") is not among the
provided sources, so the `RVOPC_*` pairs below carry the standard RV32IMAC
mandated fixed bits for each mnemonic the step function matches.
-/

/-- `rv_core.cpp` `sext(bits, sign_bit)`. -/
def sext (bits : Nat) (sign_bit : Nat) : Nat :=
  if sign_bit ≥ 31 then bits
  else wsub (bits &&& ((1 <<< (sign_bit + 1)) - 1)) ((bits &&& (1 <<< sign_bit)) <<< 1)

def imm_i (instr : Nat) : Nat := wsub (instr >>> 20) ((instr >>> 19) &&& 0x1000)

def imm_s (instr : Nat) : Nat :=
  wsub (((instr >>> 20) &&& 0xfe0) + ((instr >>> 7) &&& 0x1f)) ((instr >>> 19) &&& 0x1000)

def imm_u (instr : Nat) : Nat := instr &&& 0xfffff000

def imm_b (instr : Nat) : Nat :=
  wsub (((instr >>> 7) &&& 0x1e) + ((instr >>> 20) &&& 0x7e0) + ((instr <<< 4) &&& 0x800))
    ((instr >>> 19) &&& 0x1000)

def imm_j (instr : Nat) : Nat :=
  wsub (((instr >>> 20) &&& 0x7fe) + ((instr >>> 9) &&& 0x800) + (instr &&& 0xff000))
    ((instr >>> 11) &&& 0x100000)

def imm_ci (instr : Nat) : Nat := wsub (GETBITS instr 6 2) (GETBIT instr 12 <<< 5)

def imm_cj (instr : Nat) : Nat :=
  wsub ((GETBIT instr 11 <<< 4) + (GETBITS instr 10 9 <<< 8) + (GETBIT instr 8 <<< 10)
      + (GETBIT instr 7 <<< 6) + (GETBIT instr 6 <<< 7) + (GETBITS instr 5 3 <<< 1)
      + (GETBIT instr 2 <<< 5))
    (GETBIT instr 12 <<< 11)

def imm_cb (instr : Nat) : Nat :=
  wsub ((GETBITS instr 11 10 <<< 3) + (GETBITS instr 6 5 <<< 6) + (GETBITS instr 4 3 <<< 1)
      + (GETBIT instr 2 <<< 5))
    (GETBIT instr 12 <<< 8)

def c_rs1_s (instr : Nat) : Nat := GETBITS instr 9 7 + 8
def c_rs2_s (instr : Nat) : Nat := GETBITS instr 4 2 + 8
def c_rs1_l (instr : Nat) : Nat := GETBITS instr 11 7
def c_rs2_l (instr : Nat) : Nat := GETBITS instr 6 2

/-- `RVOPC_MATCH(instr, X)`: `(instr & X_MASK) == X_BITS`. -/
def rvopcMatch (instr mask bits : Nat) : Bool := instr &&& mask == bits

def RVOPC_LR_W_MASK      : Nat := 0xf9f0707f
def RVOPC_LR_W_BITS      : Nat := 0x1000202f
def RVOPC_SC_W_MASK      : Nat := 0xf800707f
def RVOPC_SC_W_BITS      : Nat := 0x1800202f
def RVOPC_AMOSWAP_W_MASK : Nat := 0xf800707f
def RVOPC_AMOSWAP_W_BITS : Nat := 0x0800202f
def RVOPC_AMOADD_W_BITS  : Nat := 0x0000202f
def RVOPC_AMOXOR_W_BITS  : Nat := 0x2000202f
def RVOPC_AMOAND_W_BITS  : Nat := 0x6000202f
def RVOPC_AMOOR_W_BITS   : Nat := 0x4000202f
def RVOPC_AMOMIN_W_BITS  : Nat := 0x8000202f
def RVOPC_AMOMAX_W_BITS  : Nat := 0xa000202f
def RVOPC_AMOMINU_W_BITS : Nat := 0xc000202f
def RVOPC_AMOMAXU_W_BITS : Nat := 0xe000202f
def RVOPC_FENCE_MASK     : Nat := 0x0000707f
def RVOPC_FENCE_BITS     : Nat := 0x0000000f
def RVOPC_FENCE_I_MASK   : Nat := 0x0000707f
def RVOPC_FENCE_I_BITS   : Nat := 0x0000100f
def RVOPC_CSRRW_MASK     : Nat := 0x0000707f
def RVOPC_CSRRW_BITS     : Nat := 0x00001073
def RVOPC_CSRRS_BITS     : Nat := 0x00002073
def RVOPC_CSRRC_BITS     : Nat := 0x00003073
def RVOPC_CSRRWI_BITS    : Nat := 0x00005073
def RVOPC_CSRRSI_BITS    : Nat := 0x00006073
def RVOPC_CSRRCI_BITS    : Nat := 0x00007073
def RVOPC_MRET_MASK      : Nat := 0xffffffff
def RVOPC_MRET_BITS      : Nat := 0x30200073
def RVOPC_SRET_BITS      : Nat := 0x10200073
def RVOPC_SFENCE_VMA_MASK : Nat := 0xfe007fff
def RVOPC_SFENCE_VMA_BITS : Nat := 0x12000073
def RVOPC_ECALL_BITS     : Nat := 0x00000073
def RVOPC_EBREAK_BITS    : Nat := 0x00100073
def RVOPC_WFI_BITS       : Nat := 0x10500073
def RVOPC_ILLEGAL16_MASK : Nat := 0xffff
def RVOPC_ILLEGAL16_BITS : Nat := 0x0000
def RVOPC_C_ADDI4SPN_MASK : Nat := 0xe003
def RVOPC_C_ADDI4SPN_BITS : Nat := 0x0000
def RVOPC_C_LW_BITS      : Nat := 0x4000
def RVOPC_C_SW_BITS      : Nat := 0xc000
def RVOPC_C_ADDI_BITS    : Nat := 0x0001
def RVOPC_C_JAL_BITS     : Nat := 0x2001
def RVOPC_C_LI_BITS      : Nat := 0x4001
def RVOPC_C_LUI_BITS     : Nat := 0x6001
def RVOPC_C_SRLI_MASK    : Nat := 0xfc03
def RVOPC_C_SRLI_BITS    : Nat := 0x8001
def RVOPC_C_SRAI_BITS    : Nat := 0x8401
def RVOPC_C_ANDI_MASK    : Nat := 0xec03
def RVOPC_C_ANDI_BITS    : Nat := 0x8801
def RVOPC_C_SUB_MASK     : Nat := 0xfc63
def RVOPC_C_SUB_BITS     : Nat := 0x8c01
def RVOPC_C_XOR_BITS     : Nat := 0x8c21
def RVOPC_C_OR_BITS      : Nat := 0x8c41
def RVOPC_C_AND_BITS     : Nat := 0x8c61
def RVOPC_C_J_BITS       : Nat := 0xa001
def RVOPC_C_BEQZ_BITS    : Nat := 0xc001
def RVOPC_C_BNEZ_BITS    : Nat := 0xe001
def RVOPC_C_SLLI_MASK    : Nat := 0xf003
def RVOPC_C_SLLI_BITS    : Nat := 0x0002
def RVOPC_C_MV_MASK      : Nat := 0xf003
def RVOPC_C_MV_BITS      : Nat := 0x8002
def RVOPC_C_ADD_BITS     : Nat := 0x9002
def RVOPC_C_LWSP_BITS    : Nat := 0x4002
def RVOPC_C_SWSP_BITS    : Nat := 0xc002

def OPC_LOAD     : Nat := 0x00
def OPC_MISC_MEM : Nat := 0x03
def OPC_OP_IMM   : Nat := 0x04
def OPC_AUIPC    : Nat := 0x05
def OPC_STORE    : Nat := 0x08
def OPC_AMO      : Nat := 0x0b
def OPC_OP       : Nat := 0x0c
def OPC_LUI      : Nat := 0x0d
def OPC_BRANCH   : Nat := 0x18
def OPC_JALR     : Nat := 0x19
def OPC_JAL      : Nat := 0x1b
def OPC_SYSTEM   : Nat := 0x1c

/-!
The M-extension divide/remainder write values, exactly as computed by the
`OPC_OP`, `funct7 == 0b0000001`, `funct3 >= 0b100` arm of `RVCore::step`
(`rv_core.cpp` lines 169-192).  `op_div`'s middle arm is the source's
special case `rs2 == ~0u -> rd = -rs1`.
-/

def op_div (rs1 rs2 : Nat) : Nat :=
  if rs2 = 0 then 0xffffffff
  else if rs2 = 0xffffffff then wneg rs1
  else toU (Int.tdiv (toS rs1) (toS rs2))

def op_divu (rs1 rs2 : Nat) : Nat :=
  if rs2 ≠ 0 then rs1 / rs2 else 0xffffffff

def op_rem (rs1 rs2 : Nat) : Nat :=
  if rs2 = 0 then rs1
  else if rs2 = 0xffffffff then 0
  else toU (Int.tmod (toS rs1) (toS rs2))

def op_remu (rs1 rs2 : Nat) : Nat :=
  if rs2 ≠ 0 then rs1 % rs2 else rs1

/-- 64-bit wrap of an integer (the C++ multiply path works in `int64_t`). -/
def wrap64 (i : Int) : Int := Int.emod (i + 9223372036854775808) 18446744073709551616 - 9223372036854775808

/-- Hart architectural state around the CSR engine (`struct RVCore`). -/
structure Core where
  regs : Nat → Nat
  pc : Nat
  csr : RVCSR
  load_reserved : Bool

/-- `RVCore::vmap_sv32` (`include/rv_core.h`): two-level Sv32 walk with
permission check, superpage-alignment check and A/D read-modify-write.
Returns the physical address (or `none` on any fault) and the possibly
A/D-updated memory.  The `effective_priv` argument is only `assert`ed in the
C++; `pte_permissions_ok` recomputes the effective privilege from the CSR
state, so it is dropped here. -/
def vmap_sv32 (csr : RVCSR) (m : Mem) (vaddr atp required_permissions : Nat) :
    Option Nat × Mem :=
  let addr_of_pte1 := wadd atp ((vaddr >>> 20) &&& 0xffc)
  match m.r32 addr_of_pte1 with
  | none => (none, m)
  | some pte1 =>
    if pte1 &&& PTE_V = 0 then (none, m)
    else if pte1 &&& (PTE_X ||| PTE_W ||| PTE_R) ≠ 0 then
      -- Leaf PTE at level 1
      if ¬csr.pte_permissions_ok pte1 required_permissions then (none, m)
      else if pte1 &&& 0x000ffc00 ≠ 0 then (none, m)
      else
        let pte1_a_d_update :=
          pte1 ||| PTE_A ||| (if required_permissions &&& PTE_W ≠ 0 then PTE_D else 0)
        let pa := ((pte1 <<< 2) &&& 0xffc00000) ||| (vaddr &&& 0x003fffff)
        if pte1_a_d_update ≠ pte1 then
          match m.w32 addr_of_pte1 pte1_a_d_update with
          | none => (none, m)
          | some m' => (some pa, m')
        else (some pa, m)
    else
      let addr_of_pte0 := ((pte1 <<< 2) &&& 0xfffff000) ||| ((vaddr >>> 10) &&& 0xffc)
      match m.r32 addr_of_pte0 with
      | none => (none, m)
      | some pte0 =>
        if pte0 &&& PTE_V = 0 then (none, m)
        else if pte0 &&& (PTE_X ||| PTE_W ||| PTE_R) = 0 then (none, m)
        else if ¬csr.pte_permissions_ok pte0 required_permissions then (none, m)
        else
          let pte0_a_d_update :=
            pte0 ||| PTE_A ||| (if required_permissions &&& PTE_W ≠ 0 then PTE_D else 0)
          let pa := ((pte0 <<< 2) &&& 0xfffff000) ||| (vaddr &&& 0xfff)
          if pte0_a_d_update ≠ pte0 then
            match m.w32 addr_of_pte0 pte0_a_d_update with
            | none => (none, m)
            | some m' => (some pa, m')
          else (some pa, m)

/-- `RVCore::vmap_ls`. -/
def vmap_ls (csr : RVCSR) (m : Mem) (vaddr required_permissions : Nat) : Option Nat × Mem :=
  if csr.translation_enabled_ls then
    vmap_sv32 csr m vaddr csr.get_atp required_permissions
  else
    (some vaddr, m)

/-- `RVCore::vmap_fetch`. -/
def vmap_fetch (csr : RVCSR) (m : Mem) (vaddr : Nat) : Option Nat × Mem :=
  if csr.translation_enabled_fetch then
    vmap_sv32 csr m vaddr csr.get_atp PTE_X
  else
    (some vaddr, m)

/-- The per-instruction outcome record: the `rd_wdata`/`pc_wdata`/
`exception_cause`/`xtval_wdata`/`regnum_rd` locals of `RVCore::step`,
together with the state the executed instruction may have mutated. -/
structure ExecOut where
  rd_wdata : Option Nat := none
  pc_wdata : Option Nat := none
  exception_cause : Option Nat := none
  xtval_wdata : Option Nat := none
  regnum_rd : Nat := 0
  csr : RVCSR
  load_reserved : Bool
  mem : Mem

/-- The 32-bit instruction switch of `RVCore::step` (`rv_core.cpp` lines
114-523). -/
def exec32 (c : Core) (m : Mem) (instr : Nat) : ExecOut :=
  let opc := (instr >>> 2) &&& 0x1f
  let funct3 := (instr >>> 12) &&& 0x7
  let funct7 := (instr >>> 25) &&& 0x7f
  let regnum_rs1 := (instr >>> 15) &&& 0x1f
  let regnum_rs2 := (instr >>> 20) &&& 0x1f
  let regnum_rd := (instr >>> 7) &&& 0x1f
  let rs1 := c.regs regnum_rs1
  let rs2 := c.regs regnum_rs2
  let e0 : ExecOut :=
    { regnum_rd := regnum_rd, csr := c.csr, load_reserved := c.load_reserved, mem := m }
  if opc = OPC_OP then
    if funct7 = 0x00 then
      if funct3 = 0 then { e0 with rd_wdata := some (wadd rs1 rs2) }
      else if funct3 = 1 then { e0 with rd_wdata := some ((rs1 <<< (rs2 &&& 0x1f)) % M32) }
      else if funct3 = 2 then { e0 with rd_wdata := some (if toS rs1 < toS rs2 then 1 else 0) }
      else if funct3 = 3 then { e0 with rd_wdata := some (if rs1 < rs2 then 1 else 0) }
      else if funct3 = 4 then { e0 with rd_wdata := some (rs1 ^^^ rs2) }
      else if funct3 = 5 then { e0 with rd_wdata := some (rs1 >>> (rs2 &&& 0x1f)) }
      else if funct3 = 6 then { e0 with rd_wdata := some (rs1 ||| rs2) }
      else if funct3 = 7 then { e0 with rd_wdata := some (rs1 &&& rs2) }
      else { e0 with exception_cause := some XCAUSE_INSTR_ILLEGAL }
    else if funct7 = 0x20 then
      if funct3 = 0 then { e0 with rd_wdata := some (wsub rs1 rs2) }
      else if funct3 = 5 then { e0 with rd_wdata := some (asr rs1 (rs2 &&& 0x1f)) }
      else { e0 with exception_cause := some XCAUSE_INSTR_ILLEGAL }
    else if funct7 = 0x01 then
      if funct3 < 4 then
        let mul_op_a : Int := if funct3 ≠ 3 then toS rs1 else (rs1 : Int)
        let mul_op_b : Int := if funct3 < 2 then toS rs2 else (rs2 : Int)
        let mul_result := wrap64 (mul_op_a * mul_op_b)
        if funct3 = 0 then { e0 with rd_wdata := some (toU mul_result) }
        else { e0 with rd_wdata := some (toU (Int.fdiv mul_result 4294967296)) }
      else
        if funct3 = 4 then { e0 with rd_wdata := some (op_div rs1 rs2) }
        else if funct3 = 5 then { e0 with rd_wdata := some (op_divu rs1 rs2) }
        else if funct3 = 6 then { e0 with rd_wdata := some (op_rem rs1 rs2) }
        else { e0 with rd_wdata := some (op_remu rs1 rs2) }
    else { e0 with exception_cause := some XCAUSE_INSTR_ILLEGAL }
  else if opc = OPC_OP_IMM then
    let imm := imm_i instr
    if funct3 = 0 then { e0 with rd_wdata := some (wadd rs1 imm) }
    else if funct3 = 2 then { e0 with rd_wdata := some (if toS rs1 < toS imm then 1 else 0) }
    else if funct3 = 3 then { e0 with rd_wdata := some (if rs1 < imm then 1 else 0) }
    else if funct3 = 4 then { e0 with rd_wdata := some (rs1 ^^^ imm) }
    else if funct3 = 6 then { e0 with rd_wdata := some (rs1 ||| imm) }
    else if funct3 = 7 then { e0 with rd_wdata := some (rs1 &&& imm) }
    else if funct3 = 1 ∨ funct3 = 5 then
      -- shamt is regnum_rs2
      if funct7 = 0x00 ∧ funct3 = 1 then { e0 with rd_wdata := some ((rs1 <<< regnum_rs2) % M32) }
      else if funct7 = 0x00 ∧ funct3 = 5 then { e0 with rd_wdata := some (rs1 >>> regnum_rs2) }
      else if funct7 = 0x20 ∧ funct3 = 5 then { e0 with rd_wdata := some (asr rs1 regnum_rs2) }
      else { e0 with exception_cause := some XCAUSE_INSTR_ILLEGAL }
    else { e0 with exception_cause := some XCAUSE_INSTR_ILLEGAL }
  else if opc = OPC_BRANCH then
    let target := wadd c.pc (imm_b instr)
    let tk : Bool × Option Nat :=
      if funct3 &&& 0x6 = 0x0 then (rs1 == rs2, none)
      else if funct3 &&& 0x6 = 0x4 then (decide (toS rs1 < toS rs2), none)
      else if funct3 &&& 0x6 = 0x6 then (decide (rs1 < rs2), none)
      else (false, some XCAUSE_INSTR_ILLEGAL)
    let taken := if tk.2 = none ∧ funct3 &&& 0x1 ≠ 0 then !tk.1 else tk.1
    if taken then { e0 with pc_wdata := some target, exception_cause := tk.2 }
    else { e0 with exception_cause := tk.2 }
  else if opc = OPC_LOAD then
    let load_addr_v := wadd rs1 (imm_i instr)
    let align_mask := compl32 ((0xffffffff <<< (funct3 &&& 0x3)) % M32)
    let misalign := load_addr_v &&& align_mask ≠ 0
    if funct3 = 3 ∨ funct3 > 5 then { e0 with exception_cause := some XCAUSE_INSTR_ILLEGAL }
    else if misalign then
      { e0 with exception_cause := some XCAUSE_LOAD_ALIGN, xtval_wdata := some load_addr_v }
    else
      match vmap_ls c.csr m load_addr_v PTE_R with
      | (none, m') =>
        { e0 with exception_cause := some XCAUSE_LOAD_PAGEFAULT,
                  xtval_wdata := some load_addr_v, mem := m' }
      | (some pa, m') =>
        let rd : Option Nat :=
          if funct3 = 0 then (m'.r8 pa).map (fun v => sext v 7)
          else if funct3 = 1 then (m'.r16 pa).map (fun v => sext v 15)
          else if funct3 = 2 then m'.r32 pa
          else if funct3 = 4 then m'.r8 pa
          else m'.r16 pa
        if rd = none then
          { e0 with exception_cause := some XCAUSE_LOAD_FAULT,
                    xtval_wdata := some load_addr_v, mem := m' }
        else { e0 with rd_wdata := rd, mem := m' }
  else if opc = OPC_STORE then
    let store_addr_v := wadd rs1 (imm_s instr)
    let align_mask := compl32 ((0xffffffff <<< (funct3 &&& 0x3)) % M32)
    let misalign := store_addr_v &&& align_mask ≠ 0
    if funct3 > 2 then { e0 with exception_cause := some XCAUSE_INSTR_ILLEGAL }
    else if misalign then
      { e0 with exception_cause := some XCAUSE_STORE_ALIGN, xtval_wdata := some store_addr_v }
    else
      match vmap_ls c.csr m store_addr_v PTE_W with
      | (none, m') =>
        { e0 with exception_cause := some XCAUSE_STORE_PAGEFAULT,
                  xtval_wdata := some store_addr_v, mem := m' }
      | (some pa, m') =>
        let wres : Option Mem :=
          if funct3 = 0 then m'.w8 pa (rs2 &&& 0xff)
          else if funct3 = 1 then m'.w16 pa (rs2 &&& 0xffff)
          else m'.w32 pa rs2
        match wres with
        | none =>
          { e0 with exception_cause := some XCAUSE_STORE_FAULT,
                    xtval_wdata := some store_addr_v, mem := m' }
        | some m'' => { e0 with mem := m'' }
  else if opc = OPC_AMO then
    if rvopcMatch instr RVOPC_LR_W_MASK RVOPC_LR_W_BITS then
      if rs1 &&& 0x3 ≠ 0 then
        { e0 with exception_cause := some XCAUSE_LOAD_ALIGN, xtval_wdata := some rs1 }
      else
        match vmap_ls c.csr m rs1 PTE_R with
        | (none, m') =>
          { e0 with exception_cause := some XCAUSE_LOAD_PAGEFAULT,
                    xtval_wdata := some rs1, mem := m' }
        | (some pa, m') =>
          match m'.r32 pa with
          | some v => { e0 with rd_wdata := some v, load_reserved := true, mem := m' }
          | none =>
            { e0 with exception_cause := some XCAUSE_LOAD_FAULT,
                      xtval_wdata := some rs1, mem := m' }
    else if rvopcMatch instr RVOPC_SC_W_MASK RVOPC_SC_W_BITS then
      if rs1 &&& 0x3 ≠ 0 then
        { e0 with exception_cause := some XCAUSE_STORE_ALIGN, xtval_wdata := some rs1 }
      else if c.load_reserved then
        match vmap_ls c.csr m rs1 PTE_W with
        | (none, m') =>
          { e0 with exception_cause := some XCAUSE_STORE_PAGEFAULT,
                    xtval_wdata := some rs1, mem := m' }
        | (some pa, m') =>
          -- load_reserved is cleared before the write is attempted
          match m'.w32 pa rs2 with
          | some m'' => { e0 with rd_wdata := some 0, load_reserved := false, mem := m'' }
          | none =>
            { e0 with exception_cause := some XCAUSE_STORE_FAULT,
                      xtval_wdata := some rs1, load_reserved := false, mem := m' }
      else { e0 with rd_wdata := some 1 }
    else if rvopcMatch instr RVOPC_AMOSWAP_W_MASK RVOPC_AMOSWAP_W_BITS ∨
        rvopcMatch instr RVOPC_AMOSWAP_W_MASK RVOPC_AMOADD_W_BITS ∨
        rvopcMatch instr RVOPC_AMOSWAP_W_MASK RVOPC_AMOXOR_W_BITS ∨
        rvopcMatch instr RVOPC_AMOSWAP_W_MASK RVOPC_AMOAND_W_BITS ∨
        rvopcMatch instr RVOPC_AMOSWAP_W_MASK RVOPC_AMOOR_W_BITS ∨
        rvopcMatch instr RVOPC_AMOSWAP_W_MASK RVOPC_AMOMIN_W_BITS ∨
        rvopcMatch instr RVOPC_AMOSWAP_W_MASK RVOPC_AMOMAX_W_BITS ∨
        rvopcMatch instr RVOPC_AMOSWAP_W_MASK RVOPC_AMOMINU_W_BITS ∨
        rvopcMatch instr RVOPC_AMOSWAP_W_MASK RVOPC_AMOMAXU_W_BITS then
      if rs1 &&& 0x3 ≠ 0 then
        { e0 with exception_cause := some XCAUSE_STORE_ALIGN, xtval_wdata := some rs1 }
      else
        match vmap_ls c.csr m rs1 (PTE_W ||| PTE_R) with
        | (none, m') =>
          { e0 with exception_cause := some XCAUSE_STORE_PAGEFAULT,
                    xtval_wdata := some rs1, mem := m' }
        | (some pa, m') =>
          match m'.r32 pa with
          | none =>
            -- Yes, AMO faults report as store faults
            { e0 with exception_cause := some XCAUSE_STORE_FAULT,
                      xtval_wdata := some rs1, mem := m' }
          | some v =>
            let amoval :=
              if instr &&& RVOPC_AMOSWAP_W_MASK = RVOPC_AMOSWAP_W_BITS then rs2
              else if instr &&& RVOPC_AMOSWAP_W_MASK = RVOPC_AMOADD_W_BITS then wadd v rs2
              else if instr &&& RVOPC_AMOSWAP_W_MASK = RVOPC_AMOXOR_W_BITS then v ^^^ rs2
              else if instr &&& RVOPC_AMOSWAP_W_MASK = RVOPC_AMOAND_W_BITS then v &&& rs2
              else if instr &&& RVOPC_AMOSWAP_W_MASK = RVOPC_AMOOR_W_BITS then v ||| rs2
              else if instr &&& RVOPC_AMOSWAP_W_MASK = RVOPC_AMOMIN_W_BITS then
                (if toS v < toS rs2 then v else rs2)
              else if instr &&& RVOPC_AMOSWAP_W_MASK = RVOPC_AMOMAX_W_BITS then
                (if toS v > toS rs2 then v else rs2)
              else if instr &&& RVOPC_AMOSWAP_W_MASK = RVOPC_AMOMINU_W_BITS then
                (if v < rs2 then v else rs2)
              else (if v > rs2 then v else rs2)
            match m'.w32 pa amoval with
            | some m'' => { e0 with rd_wdata := some v, mem := m'' }
            | none =>
              -- note rd_wdata keeps the loaded value here, as in the C++
              { e0 with rd_wdata := some v, exception_cause := some XCAUSE_STORE_FAULT,
                        xtval_wdata := some rs1, mem := m' }
    else { e0 with exception_cause := some XCAUSE_INSTR_ILLEGAL }
  else if opc = OPC_MISC_MEM then
    if rvopcMatch instr RVOPC_FENCE_MASK RVOPC_FENCE_BITS then e0
    else if rvopcMatch instr RVOPC_FENCE_I_MASK RVOPC_FENCE_I_BITS then e0
    else { e0 with exception_cause := some XCAUSE_INSTR_ILLEGAL }
  else if opc = OPC_JAL then
    { e0 with rd_wdata := some (wadd c.pc 4), pc_wdata := some (wadd c.pc (imm_j instr)) }
  else if opc = OPC_JALR then
    { e0 with rd_wdata := some (wadd c.pc 4),
              pc_wdata := some ((wadd rs1 (imm_i instr)) &&& 0xfffffffe) }
  else if opc = OPC_LUI then { e0 with rd_wdata := some (imm_u instr) }
  else if opc = OPC_AUIPC then { e0 with rd_wdata := some (wadd c.pc (imm_u instr)) }
  else if opc = OPC_SYSTEM then
    if rvopcMatch instr RVOPC_CSRRW_MASK RVOPC_CSRRW_BITS ∨
        rvopcMatch instr RVOPC_CSRRW_MASK RVOPC_CSRRS_BITS ∨
        rvopcMatch instr RVOPC_CSRRW_MASK RVOPC_CSRRC_BITS ∨
        rvopcMatch instr RVOPC_CSRRW_MASK RVOPC_CSRRWI_BITS ∨
        rvopcMatch instr RVOPC_CSRRW_MASK RVOPC_CSRRSI_BITS ∨
        rvopcMatch instr RVOPC_CSRRW_MASK RVOPC_CSRRCI_BITS then
      let csr_addr := instr >>> 20
      let write_op := (funct3 - 1) &&& 0x3
      let wdata := if funct3 &&& 0x4 ≠ 0 then regnum_rs1 else rs1
      let rdres : Option Nat × Option Nat :=
        if write_op ≠ WRITE ∨ regnum_rd ≠ 0 then
          match c.csr.read csr_addr with
          | some v => (some v, none)
          | none => (none, some XCAUSE_INSTR_ILLEGAL)
        else (none, none)
      let wrres : RVCSR × Option Nat :=
        if write_op = WRITE ∨ regnum_rs1 ≠ 0 then
          match c.csr.write csr_addr wdata write_op with
          | some csr' => (csr', rdres.2)
          | none => (c.csr, some XCAUSE_INSTR_ILLEGAL)
        else (c.csr, rdres.2)
      -- a write exception suppresses the GPR writeback of the earlier read
      if wrres.2 ≠ none then
        { e0 with rd_wdata := none, exception_cause := wrres.2, csr := wrres.1 }
      else { e0 with rd_wdata := rdres.1, csr := wrres.1 }
    else if rvopcMatch instr RVOPC_MRET_MASK RVOPC_MRET_BITS then
      if c.csr.get_true_priv = PRV_M then
        let r := c.csr.trap_mret
        { e0 with pc_wdata := some r.2, csr := r.1 }
      else { e0 with exception_cause := some XCAUSE_INSTR_ILLEGAL }
    else if rvopcMatch instr RVOPC_MRET_MASK RVOPC_SRET_BITS then
      if c.csr.get_true_priv ≥ PRV_S then
        let r := c.csr.trap_sret c.pc
        { e0 with pc_wdata := some r.2, csr := r.1 }
      else { e0 with exception_cause := some XCAUSE_INSTR_ILLEGAL }
    else if rvopcMatch instr RVOPC_SFENCE_VMA_MASK RVOPC_SFENCE_VMA_BITS then
      if ¬c.csr.permit_sfence_vma then
        { e0 with exception_cause := some XCAUSE_INSTR_ILLEGAL }
      else e0
    else if rvopcMatch instr RVOPC_MRET_MASK RVOPC_ECALL_BITS then
      { e0 with exception_cause := some (XCAUSE_ECALL_U + c.csr.get_true_priv),
                xtval_wdata := some 0 }
    else if rvopcMatch instr RVOPC_MRET_MASK RVOPC_EBREAK_BITS then
      { e0 with exception_cause := some XCAUSE_EBREAK, xtval_wdata := some 0 }
    else if rvopcMatch instr RVOPC_MRET_MASK RVOPC_WFI_BITS then e0
    else { e0 with exception_cause := some XCAUSE_INSTR_ILLEGAL }
  else { e0 with exception_cause := some XCAUSE_INSTR_ILLEGAL }

/-- RVC Quadrant 00 (`rv_core.cpp` lines 524-579). -/
def exec_q0 (c : Core) (m : Mem) (instr : Nat) : ExecOut :=
  let e0 : ExecOut := { csr := c.csr, load_reserved := c.load_reserved, mem := m }
  if rvopcMatch instr RVOPC_ILLEGAL16_MASK RVOPC_ILLEGAL16_BITS then
    { e0 with exception_cause := some XCAUSE_INSTR_ILLEGAL }
  else if rvopcMatch instr RVOPC_C_ADDI4SPN_MASK RVOPC_C_ADDI4SPN_BITS then
    { e0 with regnum_rd := c_rs2_s instr,
              rd_wdata := some (wadd (c.regs 2)
                ((GETBITS instr 12 11 <<< 4) + (GETBITS instr 10 7 <<< 6)
                  + (GETBIT instr 6 <<< 2) + (GETBIT instr 5 <<< 3))) }
  else if rvopcMatch instr RVOPC_C_ADDI4SPN_MASK RVOPC_C_LW_BITS then
    let addr_v := wadd (c.regs (c_rs1_s instr))
      ((GETBIT instr 6 <<< 2) + (GETBITS instr 12 10 <<< 3) + (GETBIT instr 5 <<< 6))
    let e1 := { e0 with regnum_rd := c_rs2_s instr }
    if addr_v &&& 0x3 ≠ 0 then
      { e1 with exception_cause := some XCAUSE_LOAD_ALIGN, xtval_wdata := some addr_v }
    else
      match vmap_ls c.csr m addr_v PTE_R with
      | (none, m') =>
        { e1 with exception_cause := some XCAUSE_LOAD_PAGEFAULT,
                  xtval_wdata := some addr_v, mem := m' }
      | (some pa, m') =>
        match m'.r32 pa with
        | some v => { e1 with rd_wdata := some v, mem := m' }
        | none =>
          { e1 with exception_cause := some XCAUSE_LOAD_FAULT,
                    xtval_wdata := some addr_v, mem := m' }
  else if rvopcMatch instr RVOPC_C_ADDI4SPN_MASK RVOPC_C_SW_BITS then
    let addr_v := wadd (c.regs (c_rs1_s instr))
      ((GETBIT instr 6 <<< 2) + (GETBITS instr 12 10 <<< 3) + (GETBIT instr 5 <<< 6))
    if addr_v &&& 0x3 ≠ 0 then
      { e0 with exception_cause := some XCAUSE_STORE_ALIGN, xtval_wdata := some addr_v }
    else
      match vmap_ls c.csr m addr_v PTE_W with
      | (none, m') =>
        { e0 with exception_cause := some XCAUSE_STORE_PAGEFAULT,
                  xtval_wdata := some addr_v, mem := m' }
      | (some pa, m') =>
        match m'.w32 pa (c.regs (c_rs2_s instr)) with
        | some m'' => { e0 with mem := m'' }
        | none =>
          { e0 with exception_cause := some XCAUSE_STORE_FAULT,
                    xtval_wdata := some addr_v, mem := m' }
  else { e0 with exception_cause := some XCAUSE_INSTR_ILLEGAL }

/-- RVC Quadrant 01 (`rv_core.cpp` lines 580-639). -/
def exec_q1 (c : Core) (m : Mem) (instr : Nat) : ExecOut :=
  let e0 : ExecOut := { csr := c.csr, load_reserved := c.load_reserved, mem := m }
  if rvopcMatch instr RVOPC_C_ADDI4SPN_MASK RVOPC_C_ADDI_BITS then
    { e0 with regnum_rd := c_rs1_l instr,
              rd_wdata := some (wadd (c.regs (c_rs1_l instr)) (imm_ci instr)) }
  else if rvopcMatch instr RVOPC_C_ADDI4SPN_MASK RVOPC_C_JAL_BITS then
    { e0 with pc_wdata := some (wadd c.pc (imm_cj instr)), regnum_rd := 1,
              rd_wdata := some (wadd c.pc 2) }
  else if rvopcMatch instr RVOPC_C_ADDI4SPN_MASK RVOPC_C_LI_BITS then
    { e0 with regnum_rd := c_rs1_l instr, rd_wdata := some (imm_ci instr) }
  else if rvopcMatch instr RVOPC_C_ADDI4SPN_MASK RVOPC_C_LUI_BITS then
    if c_rs1_l instr = 2 then
      -- ADDI16SPN if rd is sp
      { e0 with regnum_rd := 2,
                rd_wdata := some (wadd (wsub (c.regs 2) (GETBIT instr 12 <<< 9))
                  ((GETBIT instr 6 <<< 4) + (GETBIT instr 5 <<< 6)
                    + (GETBITS instr 4 3 <<< 7) + (GETBIT instr 2 <<< 5))) }
    else
      { e0 with regnum_rd := c_rs1_l instr,
                rd_wdata := some (wsub (GETBITS instr 6 2 <<< 12) (GETBIT instr 12 <<< 17)) }
  else if rvopcMatch instr RVOPC_C_SRLI_MASK RVOPC_C_SRLI_BITS then
    { e0 with regnum_rd := c_rs1_s instr,
              rd_wdata := some (c.regs (c_rs1_s instr) >>> GETBITS instr 6 2) }
  else if rvopcMatch instr RVOPC_C_SRLI_MASK RVOPC_C_SRAI_BITS then
    { e0 with regnum_rd := c_rs1_s instr,
              rd_wdata := some (asr (c.regs (c_rs1_s instr)) (GETBITS instr 6 2)) }
  else if rvopcMatch instr RVOPC_C_ANDI_MASK RVOPC_C_ANDI_BITS then
    { e0 with regnum_rd := c_rs1_s instr,
              rd_wdata := some (c.regs (c_rs1_s instr) &&& imm_ci instr) }
  else if rvopcMatch instr RVOPC_C_SUB_MASK RVOPC_C_SUB_BITS then
    { e0 with regnum_rd := c_rs1_s instr,
              rd_wdata := some (wsub (c.regs (c_rs1_s instr)) (c.regs (c_rs2_s instr))) }
  else if rvopcMatch instr RVOPC_C_SUB_MASK RVOPC_C_XOR_BITS then
    { e0 with regnum_rd := c_rs1_s instr,
              rd_wdata := some (c.regs (c_rs1_s instr) ^^^ c.regs (c_rs2_s instr)) }
  else if rvopcMatch instr RVOPC_C_SUB_MASK RVOPC_C_OR_BITS then
    { e0 with regnum_rd := c_rs1_s instr,
              rd_wdata := some (c.regs (c_rs1_s instr) ||| c.regs (c_rs2_s instr)) }
  else if rvopcMatch instr RVOPC_C_SUB_MASK RVOPC_C_AND_BITS then
    { e0 with regnum_rd := c_rs1_s instr,
              rd_wdata := some (c.regs (c_rs1_s instr) &&& c.regs (c_rs2_s instr)) }
  else if rvopcMatch instr RVOPC_C_ADDI4SPN_MASK RVOPC_C_J_BITS then
    { e0 with pc_wdata := some (wadd c.pc (imm_cj instr)) }
  else if rvopcMatch instr RVOPC_C_ADDI4SPN_MASK RVOPC_C_BEQZ_BITS then
    if c.regs (c_rs1_s instr) = 0 then
      { e0 with pc_wdata := some (wadd c.pc (imm_cb instr)) }
    else e0
  else if rvopcMatch instr RVOPC_C_ADDI4SPN_MASK RVOPC_C_BNEZ_BITS then
    if c.regs (c_rs1_s instr) ≠ 0 then
      { e0 with pc_wdata := some (wadd c.pc (imm_cb instr)) }
    else e0
  else { e0 with exception_cause := some XCAUSE_INSTR_ILLEGAL }

/-- RVC Quadrant 10 (`rv_core.cpp` lines 640-713). -/
def exec_q2 (c : Core) (m : Mem) (instr : Nat) : ExecOut :=
  let e0 : ExecOut := { csr := c.csr, load_reserved := c.load_reserved, mem := m }
  if rvopcMatch instr RVOPC_C_SLLI_MASK RVOPC_C_SLLI_BITS then
    { e0 with regnum_rd := c_rs1_l instr,
              rd_wdata := some ((c.regs (c_rs1_l instr) <<< GETBITS instr 6 2) % M32) }
  else if rvopcMatch instr RVOPC_C_MV_MASK RVOPC_C_MV_BITS then
    if c_rs2_l instr = 0 then
      -- c.jr
      { e0 with pc_wdata := some (c.regs (c_rs1_l instr) &&& 0xfffffffe) }
    else
      { e0 with regnum_rd := c_rs1_l instr, rd_wdata := some (c.regs (c_rs2_l instr)) }
  else if rvopcMatch instr RVOPC_C_MV_MASK RVOPC_C_ADD_BITS then
    if c_rs2_l instr = 0 then
      if c_rs1_l instr = 0 then
        -- c.ebreak
        { e0 with exception_cause := some XCAUSE_EBREAK, xtval_wdata := some 0 }
      else
        -- c.jalr
        { e0 with pc_wdata := some (c.regs (c_rs1_l instr) &&& 0xfffffffe), regnum_rd := 1,
                  rd_wdata := some (wadd c.pc 2) }
    else
      { e0 with regnum_rd := c_rs1_l instr,
                rd_wdata := some (wadd (c.regs (c_rs1_l instr)) (c.regs (c_rs2_l instr))) }
  else if rvopcMatch instr RVOPC_C_ADDI4SPN_MASK RVOPC_C_LWSP_BITS then
    let addr_v := wadd (c.regs 2)
      ((GETBIT instr 12 <<< 5) + (GETBITS instr 6 4 <<< 2) + (GETBITS instr 3 2 <<< 6))
    let e1 := { e0 with regnum_rd := c_rs1_l instr }
    if addr_v &&& 0x3 ≠ 0 then
      { e1 with exception_cause := some XCAUSE_LOAD_ALIGN, xtval_wdata := some addr_v }
    else
      match vmap_ls c.csr m addr_v PTE_R with
      | (none, m') =>
        { e1 with exception_cause := some XCAUSE_LOAD_PAGEFAULT,
                  xtval_wdata := some addr_v, mem := m' }
      | (some pa, m') =>
        match m'.r32 pa with
        | some v => { e1 with rd_wdata := some v, mem := m' }
        | none =>
          { e1 with exception_cause := some XCAUSE_LOAD_FAULT,
                    xtval_wdata := some addr_v, mem := m' }
  else if rvopcMatch instr RVOPC_C_ADDI4SPN_MASK RVOPC_C_SWSP_BITS then
    let addr_v := wadd (c.regs 2) ((GETBITS instr 12 9 <<< 2) + (GETBITS instr 8 7 <<< 6))
    if addr_v &&& 0x3 ≠ 0 then
      { e0 with exception_cause := some XCAUSE_STORE_ALIGN, xtval_wdata := some addr_v }
    else
      match vmap_ls c.csr m addr_v PTE_W with
      | (none, m') =>
        { e0 with exception_cause := some XCAUSE_STORE_PAGEFAULT,
                  xtval_wdata := some addr_v, mem := m' }
      | (some pa, m') =>
        match m'.w32 pa (c.regs (c_rs2_l instr)) with
        | some m'' => { e0 with mem := m'' }
        | none =>
          { e0 with exception_cause := some XCAUSE_STORE_FAULT,
                    xtval_wdata := some addr_v, mem := m' }
  else { e0 with exception_cause := some XCAUSE_INSTR_ILLEGAL }

/-- The fetch phase of `RVCore::step` (`rv_core.cpp` lines 95-104): both
halfword translations and reads are performed unconditionally; the `instr`
assembly reads absent optionals as 0 (the C++ dereferences them regardless,
but only ever consumes the bits when the corresponding read succeeded). -/
structure FetchOut where
  fetch_paddr0 : Option Nat
  fetch0 : Option Nat
  fetch_paddr1 : Option Nat
  fetch1 : Option Nat
  instr : Nat
  mem : Mem

def fetch_stage (csr : RVCSR) (m : Mem) (pc : Nat) : FetchOut :=
  let f0 := vmap_fetch csr m pc
  let fetch0 := match f0.1 with | some pa => f0.2.r16 pa | none => none
  let f1 := vmap_fetch csr f0.2 (wadd pc 2)
  let fetch1 := match f1.1 with | some pa => f1.2.r16 pa | none => none
  { fetch_paddr0 := f0.1, fetch0 := fetch0, fetch_paddr1 := f1.1, fetch1 := fetch1,
    instr := fetch0.getD 0 ||| (fetch1.getD 0 <<< 16), mem := f1.2 }

/-- The fetch-fault detection and decode dispatch of `RVCore::step`
(`rv_core.cpp` lines 106-713): an instruction page fault or access fault from
the fetch phase takes priority; otherwise the instruction executes by
quadrant. -/
def dispatch (c : Core) (f : FetchOut) : ExecOut :=
  let instr := f.instr
  if f.fetch_paddr0 = none ∨
      (f.fetch0 ≠ none ∧ f.fetch0.getD 0 &&& 0x3 = 0x3 ∧ f.fetch_paddr1 = none) then
    { exception_cause := some XCAUSE_INSTR_PAGEFAULT,
      xtval_wdata := some (if f.fetch_paddr0 ≠ none then wadd c.pc 2 else c.pc),
      csr := c.csr, load_reserved := c.load_reserved, mem := f.mem }
  else if f.fetch0 = none ∨ (f.fetch0.getD 0 &&& 0x3 = 0x3 ∧ f.fetch1 = none) then
    { exception_cause := some XCAUSE_INSTR_FAULT,
      xtval_wdata := some (if f.fetch0.getD 0 ≠ 0 then wadd c.pc 2 else c.pc),
      csr := c.csr, load_reserved := c.load_reserved, mem := f.mem }
  else if instr &&& 0x3 = 0x3 then exec32 c f.mem instr
  else if instr &&& 0x3 = 0x0 then exec_q0 c f.mem instr
  else if instr &&& 0x3 = 0x1 then exec_q1 c f.mem instr
  else exec_q2 c f.mem instr

/-- The writeback phase of `RVCore::step` (`rv_core.cpp` lines 738-773):
trap entry (with xtval defaulting for illegal instructions) or post-commit
IRQ check, then PC update, GPR writeback and the counter tick. -/
def writeback (c : Core) (instr : Nat) (eo : ExecOut) : Core × Mem :=
  let post : RVCSR × Option Nat :=
    match eo.exception_cause with
    | some cause =>
      let xtval :=
        if cause = XCAUSE_INSTR_ILLEGAL ∧ eo.xtval_wdata = none then
          some (instr &&& (if instr &&& 0x3 = 0x3 then 0xffffffff else 0xffff))
        else eo.xtval_wdata
      let t := eo.csr.trap_enter_exception cause c.pc
      let csr' := match xtval with | some tv => t.1.trap_set_xtval tv | none => t.1
      (csr', some t.2)
    | none =>
      match eo.csr.trap_check_enter_irq (eo.pc_wdata.getD c.pc) with
      | some t => (t.1, some t.2)
      | none => (eo.csr, eo.pc_wdata)
  let pc' := match post.2 with
    | some t => t
    | none => wadd c.pc (if instr &&& 0x3 = 0x3 then 4 else 2)
  let regs' :=
    if eo.rd_wdata ≠ none ∧ eo.regnum_rd ≠ 0 then
      fun i => if i = eo.regnum_rd then eo.rd_wdata.getD 0 else c.regs i
    else c.regs
  ({ regs := regs', pc := pc', csr := post.1.step_counters,
     load_reserved := eo.load_reserved }, eo.mem)

/-- One instruction step, `RVCore::step` (`rv_core.cpp` lines 84-774, trace
output omitted): fetch, decode/execute, trap entry or IRQ check, PC and GPR
writeback, counter tick. -/
def step (c : Core) (m : Mem) : Core × Mem :=
  let f := fetch_stage c.csr m c.pc
  writeback c f.instr (dispatch c f)

/-!
Concrete machine states used to evaluate the embedding at specific inputs,
and the spec-side statements of the divide/remainder rules.
-/

/-- A finite memory: listed word indices are mapped, everything else is a bus
error; all words accept writes. -/
def mkMem (l : List (Nat × Nat)) : Mem where
  words := fun i => (l.find? (fun p => p.1 = i)).map Prod.snd
  wok := fun _ => true

/-- A hart at reset (M-mode, zeroed registers and CSRs) with pc 0x100. -/
def core0 : Core where
  regs := fun _ => 0
  pc := 0x100
  csr := RVCSR.reset
  load_reserved := false

/-- State for the AMO store-fault experiment: `amoadd.w x3, x2, (x1)` at
0x100, x1 = 0x200 pointing at a readable word that refuses writes. -/
def c1Core : Core :=
  { core0 with regs := fun i => if i = 1 then 0x200 else if i = 2 then 7 else 0 }

def c1Mem : Mem :=
  { mkMem [(0x40, 0x0020a1af), (0x80, 0x1111)] with wok := fun i => i ≠ 0x80 }

/-- State for the IRQ-epc experiment: `addi x1, x0, -1` at 0x100 with an
enabled, pending machine timer interrupt (mie.MTIE, mstatus.MIE, irq_t). -/
def c5Core : Core :=
  { core0 with csr :=
      { RVCSR.reset with xie := 0x80, xstatus := 0x8, irq_t := true, mtvec := 0x4000 } }

def c5Mem : Mem := mkMem [(0x40, 0xfff00093)]

/-- State for the compressed-fetch experiment: S-mode, Sv32 on, `c.nop` in
the last halfword of superpage 0 (pc = 0x3ffffe); the level-1 PTE of
superpage 0 (A already set) sits at word 0x2000, the PTE of superpage 1
(A clear) at word 0x2001. -/
def c7Core : Core :=
  { core0 with pc := 0x3ffffe,
               csr := { RVCSR.reset with priv := 1, satp := 0x80000008 } }

def c7Mem : Mem := mkMem [(0x2000, 0x49), (0x2001, 0x09), (0xfffff, 0x00010000)]

/-- State for the SC.W witness: `sc.w x3, x2, (x1)` at 0x100 with
x1 = 0x200, x2 = 77, the target word mapped and writable. -/
def c8Core : Core :=
  { core0 with regs := fun i => if i = 1 then 0x200 else if i = 2 then 77 else 0,
               load_reserved := true }

def c8Mem : Mem := mkMem [(0x40, 0x1820a1af), (0x80, 55)]

/-- State for the IRQ-decision witness: U-mode hart with mie.MTIE set, MIE
clear, timer line asserted. -/
def c9Csr : RVCSR := { RVCSR.reset with priv := 0, xie := 0x80, irq_t := true }

/-- The DIV rule as the spec states it: divisor 0 gives -1, the signed
overflow case gives rs1 back, otherwise the (truncated) signed quotient. -/
def spec_div (rs1 rs2 : Nat) : Nat :=
  if rs2 = 0 then 0xffffffff
  else if rs1 = 0x80000000 ∧ rs2 = 0xffffffff then rs1
  else toU (Int.tdiv (toS rs1) (toS rs2))

/-- The DIVU rule as the spec states it. -/
def spec_divu (rs1 rs2 : Nat) : Nat :=
  if rs2 = 0 then 0xffffffff else rs1 / rs2

/-- The REM rule as the spec states it: divisor 0 gives rs1, the signed
overflow case gives 0, otherwise the (truncated) signed remainder. -/
def spec_rem (rs1 rs2 : Nat) : Nat :=
  if rs2 = 0 then rs1
  else if rs1 = 0x80000000 ∧ rs2 = 0xffffffff then 0
  else toU (Int.tmod (toS rs1) (toS rs2))

/-- The REMU rule as the spec states it. -/
def spec_remu (rs1 rs2 : Nat) : Nat :=
  if rs2 = 0 then rs1 else rs1 % rs2

/-- The claim-side M-targeted pending set, `effective_mip & mie & ~mideleg`
(spec §4.3; the code additionally masks with `MIP_R_MASK`, which is shown to
be redundant for architectural states). -/
def pending_m (s : RVCSR) : Nat := s.get_effective_xip &&& s.xie &&& compl32 s.mideleg

/-- The claim-side S-targeted pending set, `effective_mip & mie & mideleg`
restricted to the S bits (spec §4.3). -/
def pending_s (s : RVCSR) : Nat := s.get_effective_xip &&& s.xie &&& SIP_MASK &&& s.mideleg

/-- The claim-side condition for taking an M-targeted interrupt. -/
def take_m (s : RVCSR) : Prop :=
  pending_m s ≠ 0 ∧ (s.xstatus &&& MSTATUS_MIE ≠ 0 ∨ s.priv < PRV_M)

/-- The claim-side condition for taking an S-targeted interrupt. -/
def take_s (s : RVCSR) : Prop :=
  pending_s s ≠ 0 ∧ s.priv ≤ PRV_S ∧ (s.xstatus &&& SSTATUS_SIE ≠ 0 ∨ s.priv < PRV_S)

instance (s : RVCSR) : Decidable (take_m s) := by unfold take_m; infer_instance

instance (s : RVCSR) : Decidable (take_s s) := by unfold take_s; infer_instance

/-!
General helper lemmas about `Nat` bitwise arithmetic and about `ctz`.
-/

theorem lor_land_distrib (a b c : Nat) : (a ||| b) &&& c = (a &&& c) ||| (b &&& c) := by
  apply Nat.eq_of_testBit_eq
  intro i
  simp only [Nat.testBit_and, Nat.testBit_lor, Bool.and_or_distrib_right]

theorem shiftRight_land_eq (x T k : Nat) : (x >>> k) &&& T = (x &&& (T <<< k)) >>> k := by
  apply Nat.eq_of_testBit_eq
  intro i
  have h1 : k + i - k = i := by omega
  simp [Nat.testBit_and, Nat.testBit_shiftRight, Nat.testBit_shiftLeft, h1, Nat.le_add_right]

theorem land_of_match (x M B S : Nat) (h : x &&& M = B) (hS : S &&& M = S) :
    x &&& S = B &&& S := by
  calc x &&& S = x &&& (S &&& M) := by rw [hS]
  _ = x &&& (M &&& S) := by rw [Nat.land_comm S M]
  _ = x &&& M &&& S := by rw [Nat.land_assoc]
  _ = B &&& S := by rw [h]

theorem extract_of_match (x M B T k : Nat) (h : x &&& M = B)
    (hT : (T <<< k) &&& M = T <<< k) : (x >>> k) &&& T = (B >>> k) &&& T := by
  rw [shiftRight_land_eq, shiftRight_land_eq B, land_of_match x M B _ h hT]

theorem ctzFuel_spec : ∀ fuel n : Nat, n ≠ 0 → n < 2 ^ fuel →
    n.testBit (RVCSR.ctzFuel n fuel) = true ∧
      ∀ j, j < RVCSR.ctzFuel n fuel → n.testBit j = false := by
  intro fuel
  induction fuel with
  | zero => intro n hn hlt; omega
  | succ fuel ih =>
    intro n hn hlt
    rw [RVCSR.ctzFuel]
    by_cases hodd : n % 2 = 1
    · rw [if_pos hodd]
      refine ⟨by simpa [Nat.testBit_zero] using hodd, ?_⟩
      intro j hj
      omega
    · rw [if_neg hodd]
      have hhalf : n / 2 ≠ 0 := by omega
      have hhlt : n / 2 < 2 ^ fuel := by
        have : (2 : Nat) ^ (fuel + 1) = 2 ^ fuel * 2 := by ring
        omega
      obtain ⟨h1, h2⟩ := ih (n / 2) hhalf hhlt
      constructor
      · rw [Nat.add_comm 1 _, Nat.testBit_succ]
        exact h1
      · intro j hj
        match j with
        | 0 => simp [Nat.testBit_zero]; omega
        | j + 1 =>
          rw [Nat.testBit_succ]
          exact h2 j (by omega)

theorem ctz_spec (n : Nat) (hn : n ≠ 0) (hlt : n < M32) :
    n.testBit (RVCSR.ctz n) = true ∧ ∀ j, j < RVCSR.ctz n → n.testBit j = false := by
  exact ctzFuel_spec 32 n hn (by unfold M32 at hlt; omega)

/-!
The claims.
-/

/-- C1: trap atomicity demands that a faulting instruction commits none of
its own effects; but on an AMO whose memory write fails with a store access
fault, `RVCore::step` still writes the loaded value to rd while entering the
trap (partial commit).  Evaluated at `amoadd.w x3, x2, (x1)` with the
addressed word readable but write-refusing: the step records cause 7
(store/AMO access fault) with mepc/mtval set, leaves memory unchanged, yet
x3 receives the loaded value 0x1111. -/
theorem amo_store_fault_commits_rd :
    c1Core.regs 3 = 0 ∧
    (step c1Core c1Mem).1.regs 3 = 0x1111 ∧
    (step c1Core c1Mem).1.csr.mcause = XCAUSE_STORE_FAULT ∧
    (step c1Core c1Mem).1.csr.mepc = 0x100 ∧
    (step c1Core c1Mem).1.csr.mtval = 0x200 ∧
    (step c1Core c1Mem).2.words 0x80 = c1Mem.words 0x80 := by
  refine ⟨rfl, rfl, rfl, rfl, rfl, rfl⟩

/-- C2: the claim says writing X to minstret and reading it back returns X;
but `RVCSR::read` returns `minstreth` for `CSR_MINSTRET`, so after writing 5
to minstret (which does land in the minstret register) a read of minstret
returns the unrelated minstreth value 0. -/
theorem minstret_readback_returns_minstreth :
    (RVCSR.reset.write CSR_MINSTRET 5 WRITE).map (fun s => s.minstret) = some 5 ∧
    ((RVCSR.reset.write CSR_MINSTRET 5 WRITE).bind (fun s => s.read CSR_MINSTRET)) = some 0 := by
  exact ⟨rfl, rfl⟩

/-- C3: the claim (and spec §4.3) says `mret` sets MPIE to 1 and copies the
old MPIE into MIE for both old MPIE values; but `RVCSR::trap_mret` clears
MPIE (first state: MPP=M, MPIE=1 gives MPIE=0 afterwards) and only ever sets
MIE, never clears it (second state: MIE=1, MPIE=0 leaves MIE=1 where the
claim demands MIE=MPIE=0). -/
theorem mret_clears_mpie_and_keeps_mie :
    (RVCSR.trap_mret { RVCSR.reset with xstatus := 0x1880, mepc := 0x1234 }).2 = 0x1234 ∧
    (RVCSR.trap_mret { RVCSR.reset with xstatus := 0x1880, mepc := 0x1234 }).1.priv = PRV_M ∧
    (RVCSR.trap_mret { RVCSR.reset with xstatus := 0x1880, mepc := 0x1234 }).1.xstatus &&&
      MSTATUS_MPIE = 0 ∧
    (RVCSR.trap_mret { RVCSR.reset with xstatus := 0x1880, mepc := 0x1234 }).1.xstatus &&&
      MSTATUS_MIE = MSTATUS_MIE ∧
    (RVCSR.trap_mret { RVCSR.reset with xstatus := 0x8 }).1.xstatus &&&
      MSTATUS_MIE = MSTATUS_MIE := by
  refine ⟨rfl, rfl, by decide, by decide, by decide⟩

/-- C4: the claim (and spec §4.3) says trap entry saves the previous xIE
into xPIE for both values, in particular clearing a stale xPIE=1 when xIE=0;
but `RVCSR::trap_enter_at_priv` only ever sets MPIE, so with MIE=0 and a
stale MPIE=1 the entry leaves MPIE=1.  (The previous privilege is saved into
MPP and MIE is cleared, as claimed.) -/
theorem trap_entry_keeps_stale_mpie :
    ({ RVCSR.reset with xstatus := MSTATUS_MPIE } : RVCSR).xstatus &&& MSTATUS_MIE = 0 ∧
    (RVCSR.trap_enter_at_priv { RVCSR.reset with xstatus := MSTATUS_MPIE } 2 0x40 PRV_M).1.xstatus
      &&& MSTATUS_MPIE = MSTATUS_MPIE ∧
    (RVCSR.trap_enter_at_priv { RVCSR.reset with xstatus := MSTATUS_MPIE } 2 0x40 PRV_M).1.xstatus
      &&& MSTATUS_MIE = 0 ∧
    GETBITS (RVCSR.trap_enter_at_priv { RVCSR.reset with xstatus := MSTATUS_MPIE }
      2 0x40 PRV_M).1.xstatus 12 11 = PRV_M := by
  refine ⟨by decide, by decide, by decide, by decide⟩

/-- C5: the claim (and spec §4.5 step 10) says the IRQ entry records the
would-be next PC in xepc, i.e. pc+4 for a fall-through instruction; but
`RVCore::step` passes the current pc when no branch target was produced.
Evaluated at `addi x1, x0, -1` at pc=0x100 with an eligible pending machine
timer IRQ: the instruction commits (x1=0xffffffff), the IRQ is entered
(mcause=0x80000007, pc=mtvec), yet mepc=0x100, not 0x104. -/
theorem irq_xepc_is_current_pc :
    (step c5Core c5Mem).1.csr.mepc = c5Core.pc ∧
    (step c5Core c5Mem).1.csr.mepc ≠ wadd c5Core.pc 4 ∧
    (step c5Core c5Mem).1.csr.mcause = 0x80000007 ∧
    (step c5Core c5Mem).1.regs 1 = 0xffffffff ∧
    (step c5Core c5Mem).1.pc = 0x4000 := by
  refine ⟨by decide, by decide, by decide, by decide, by decide⟩

/-- C6: the claim (and spec §4.4 step 1) says a PTE with V=1, R=0, W=1 makes
the walk fail for every requested permission set; but neither
`RVCore::vmap_sv32` nor `RVCSR::pte_permissions_ok` checks for this reserved
encoding, so a store request (required permission W) through the level-1
leaf PTE 0x5 succeeds: the walk returns a physical address and even performs
the A/D update on the reserved PTE. -/
theorem sv32_w_only_pte_translates :
    (0x5 : Nat) &&& PTE_V ≠ 0 ∧ (0x5 : Nat) &&& PTE_R = 0 ∧ (0x5 : Nat) &&& PTE_W ≠ 0 ∧
    (vmap_sv32 { RVCSR.reset with priv := 1 } (mkMem [(0x400, 0x5)]) 0x0 0x1000 PTE_W).1 =
      some 0x0 ∧
    (vmap_sv32 { RVCSR.reset with priv := 1 } (mkMem [(0x400, 0x5)]) 0x0 0x1000 PTE_W).2.words
      0x400 = some 0xc5 := by
  refine ⟨by decide, by decide, by decide, by decide, by decide⟩

/-- C10: the DIV/DIVU/REM/REMU write values computed by the `OPC_OP`
M-extension arm agree, for all 32-bit operands, with the spec's rules; in
particular the implementation's blanket special case `rs2 == ~0u -> rd =
-rs1` (signed ops) coincides with the signed quotient/remainder rules under
32-bit wraparound, including the INT_MIN overflow case. -/
theorem divide_ops_match_spec :
    ∀ rs1, rs1 < M32 → ∀ rs2, rs2 < M32 →
      op_div rs1 rs2 = spec_div rs1 rs2 ∧ op_divu rs1 rs2 = spec_divu rs1 rs2 ∧
      op_rem rs1 rs2 = spec_rem rs1 rs2 ∧ op_remu rs1 rs2 = spec_remu rs1 rs2 := by
  intro rs1 h1 rs2 h2
  have hneg1 : toS 0xffffffff = -1 := by decide
  have htdiv : ∀ a : Int, a.tdiv (-1) = -a := by
    intro a
    rw [show (-1 : Int) = -(1 : Int) by norm_num, Int.tdiv_neg, Int.tdiv_one]
  have htmod : ∀ a : Int, a.tmod (-1) = 0 := by
    intro a
    have h := Int.tmod_add_tdiv a (-1)
    rw [htdiv a] at h
    omega
  have hwneg : ∀ x : Nat, x < M32 → wneg x = toU (-(toS x)) := by
    intro x hx
    unfold M32 at hx
    unfold wneg toU toS M32
    split
    · omega
    · omega
  refine ⟨?_, ?_, ?_, ?_⟩
  · unfold op_div spec_div
    by_cases hz : rs2 = 0
    · simp [hz]
    · rw [if_neg hz, if_neg hz]
      by_cases hm : rs2 = 0xffffffff
      · subst hm
        by_cases ho : rs1 = 0x80000000
        · subst ho
          rw [if_pos rfl, if_pos ⟨rfl, rfl⟩]
          decide
        · rw [if_pos rfl, if_neg (by simp [ho]), hneg1, htdiv]
          exact hwneg rs1 h1
      · rw [if_neg hm, if_neg (by simp [hm])]
  · unfold op_divu spec_divu
    by_cases hz : rs2 = 0 <;> simp [hz]
  · unfold op_rem spec_rem
    by_cases hz : rs2 = 0
    · simp [hz]
    · rw [if_neg hz, if_neg hz]
      by_cases hm : rs2 = 0xffffffff
      · subst hm
        by_cases ho : rs1 = 0x80000000
        · subst ho
          rw [if_pos rfl, if_pos ⟨rfl, rfl⟩]
        · rw [if_pos rfl, if_neg (by simp [ho]), hneg1, htmod]
          decide
      · rw [if_neg hm, if_neg (by simp [hm])]
  · unfold op_remu spec_remu
    by_cases hz : rs2 = 0 <;> simp [hz]

/-- Witness for `divide_ops_match_spec` at rs1 = 7, rs2 = 0xffffffff. -/
theorem divide_ops_match_spec_witness :
    (7 : Nat) < M32 ∧ (0xffffffff : Nat) < M32 ∧
      (op_div 7 0xffffffff = spec_div 7 0xffffffff ∧
        op_divu 7 0xffffffff = spec_divu 7 0xffffffff ∧
        op_rem 7 0xffffffff = spec_rem 7 0xffffffff ∧
        op_remu 7 0xffffffff = spec_remu 7 0xffffffff) :=
  ⟨by decide, by decide, divide_ops_match_spec 7 (by decide) 0xffffffff (by decide)⟩

theorem effective_xip_land_mask (s : RVCSR) (hxip : s.xip &&& SIP_MASK = s.xip) :
    s.get_effective_xip &&& MIP_R_MASK = s.get_effective_xip := by
  unfold RVCSR.get_effective_xip
  rw [lor_land_distrib, lor_land_distrib, lor_land_distrib]
  have h0 : s.xip &&& MIP_R_MASK = s.xip := by
    conv_lhs => rw [← hxip]
    rw [Nat.land_assoc, show SIP_MASK &&& MIP_R_MASK = SIP_MASK from by decide, hxip]
  have h1 : (if s.irq_s then MIP_MSIP ||| MIP_SSIP else 0) &&& MIP_R_MASK =
      (if s.irq_s then MIP_MSIP ||| MIP_SSIP else 0) := by
    by_cases h : s.irq_s
    · rw [if_pos h]; decide
    · rw [if_neg h]; exact Nat.zero_and _
  have h2 : (if s.irq_t then MIP_MTIP ||| MIP_STIP else 0) &&& MIP_R_MASK =
      (if s.irq_t then MIP_MTIP ||| MIP_STIP else 0) := by
    by_cases h : s.irq_t
    · rw [if_pos h]; decide
    · rw [if_neg h]; exact Nat.zero_and _
  have h3 : (if s.irq_e then MIP_MEIP ||| MIP_SEIP else 0) &&& MIP_R_MASK =
      (if s.irq_e then MIP_MEIP ||| MIP_SEIP else 0) := by
    by_cases h : s.irq_e
    · rw [if_pos h]; decide
    · rw [if_neg h]; exact Nat.zero_and _
  rw [h0, h1, h2, h3]

theorem trap_enter_M_fields (s : RVCSR) (xcause xepc : Nat) :
    (s.trap_enter_at_priv xcause xepc PRV_M).1.priv = PRV_M ∧
    (s.trap_enter_at_priv xcause xepc PRV_M).1.mcause = xcause ∧
    (s.trap_enter_at_priv xcause xepc PRV_M).1.mepc = xepc := by
  unfold RVCSR.trap_enter_at_priv
  rw [if_pos rfl]
  refine ⟨?_, ?_, ?_⟩ <;> (dsimp only []; split <;> split <;> rfl)

theorem trap_enter_S_fields (s : RVCSR) (xcause xepc : Nat) :
    (s.trap_enter_at_priv xcause xepc PRV_S).1.priv = PRV_S ∧
    (s.trap_enter_at_priv xcause xepc PRV_S).1.scause = xcause ∧
    (s.trap_enter_at_priv xcause xepc PRV_S).1.sepc = xepc := by
  unfold RVCSR.trap_enter_at_priv
  rw [if_neg (by decide)]
  refine ⟨?_, ?_, ?_⟩ <;> (dsimp only []; split <;> split <;> rfl)

/-- C9: for every architectural CSR state (xip confined to its writable S
bits, the invariant every write path preserves), `trap_check_enter_irq`
takes an interrupt exactly under the claimed conditions: an M-target iff
`effective_mip & mie & ~mideleg` is nonzero and (MIE or priv < M); an
S-target iff the delegated S-bit pending set is nonzero, priv ≤ S and (SIE
or priv < S); M wins when both hold; and the recorded cause is the lowest
set bit of the winning pending set with bit 31 set. -/
theorem irq_take_conditions_and_cause (s : RVCSR) (epc : Nat)
    (hxip : s.xip &&& SIP_MASK = s.xip) :
    ((s.trap_check_enter_irq epc).isSome ↔ take_m s ∨ take_s s) ∧
    (take_m s →
      ∃ r, s.trap_check_enter_irq epc = some r ∧ r.1.priv = PRV_M ∧ r.1.mepc = epc ∧
        r.1.mcause = 0x80000000 ||| RVCSR.ctz (pending_m s) ∧
        (pending_m s).testBit (RVCSR.ctz (pending_m s)) = true ∧
        ∀ j, j < RVCSR.ctz (pending_m s) → (pending_m s).testBit j = false) ∧
    (¬take_m s → take_s s →
      ∃ r, s.trap_check_enter_irq epc = some r ∧ r.1.priv = PRV_S ∧ r.1.sepc = epc ∧
        r.1.scause = 0x80000000 ||| RVCSR.ctz (pending_s s) ∧
        (pending_s s).testBit (RVCSR.ctz (pending_s s)) = true ∧
        ∀ j, j < RVCSR.ctz (pending_s s) → (pending_s s).testBit j = false) := by
  have hmcode : s.get_effective_xip &&& s.xie &&& MIP_R_MASK &&& compl32 s.mideleg =
      pending_m s := by
    unfold pending_m
    congr 1
    rw [Nat.land_assoc, Nat.land_comm s.xie MIP_R_MASK, ← Nat.land_assoc,
      effective_xip_land_mask s hxip]
  have hbm : pending_m s < M32 := by
    have hle : pending_m s ≤ compl32 s.mideleg := Nat.and_le_right
    have hlt : compl32 s.mideleg < M32 := by
      unfold compl32 M32
      have h4 : (4294967295 : Nat) < 2 ^ 32 := by norm_num
      have h5 : s.mideleg % 4294967296 < 2 ^ 32 := by omega
      have h6 := Nat.xor_lt_two_pow h4 h5
      omega
    omega
  have hbs : pending_s s < M32 := by
    have h1 : pending_s s ≤ s.get_effective_xip &&& s.xie &&& SIP_MASK := Nat.and_le_left
    have h2 : s.get_effective_xip &&& s.xie &&& SIP_MASK ≤ SIP_MASK := Nat.and_le_right
    have h3 : SIP_MASK < M32 := by decide
    omega
  have hunf : s.trap_check_enter_irq epc =
      if take_m s then
        some (s.trap_enter_at_priv (0x80000000 ||| RVCSR.ctz (pending_m s)) epc PRV_M)
      else if take_s s then
        some (s.trap_enter_at_priv (0x80000000 ||| RVCSR.ctz (pending_s s)) epc PRV_S)
      else none := by
    unfold RVCSR.trap_check_enter_irq
    rw [hmcode]
    rw [show s.get_effective_xip &&& s.xie &&& SIP_MASK &&& s.mideleg = pending_s s from rfl]
    have hmb : ((decide (pending_m s ≠ 0) &&
        (decide (s.xstatus &&& MSTATUS_MIE ≠ 0) || decide (s.priv < PRV_M))) = true) ↔
        take_m s := by
      simp [take_m]
    have hsb : (((decide (pending_s s ≠ 0) &&
        (decide (s.xstatus &&& SSTATUS_SIE ≠ 0) || decide (s.priv < PRV_S))) &&
        decide (s.priv ≤ PRV_S)) = true) ↔ take_s s := by
      simp [take_s]
      tauto
    by_cases hM : take_m s
    · rw [if_pos (hmb.mpr hM), if_pos hM]
    · rw [if_neg (fun hc => hM (hmb.mp hc)), if_neg hM]
      by_cases hS : take_s s
      · rw [if_pos (hsb.mpr hS), if_pos hS]
      · rw [if_neg (fun hc => hS (hsb.mp hc)), if_neg hS]
  refine ⟨?_, ?_, ?_⟩
  · rw [hunf]
    by_cases hM : take_m s
    · simp [hM]
    · by_cases hS : take_s s <;> simp [hM, hS]
  · intro hM
    rw [hunf, if_pos hM]
    refine ⟨_, rfl, ?_⟩
    obtain ⟨hf1, hf2, hf3⟩ := trap_enter_M_fields s (0x80000000 ||| RVCSR.ctz (pending_m s)) epc
    obtain ⟨hb1, hb2⟩ := ctz_spec (pending_m s) hM.1 hbm
    exact ⟨hf1, hf3, hf2, hb1, hb2⟩
  · intro hM hS
    rw [hunf, if_neg hM, if_pos hS]
    refine ⟨_, rfl, ?_⟩
    obtain ⟨hf1, hf2, hf3⟩ := trap_enter_S_fields s (0x80000000 ||| RVCSR.ctz (pending_s s)) epc
    obtain ⟨hb1, hb2⟩ := ctz_spec (pending_s s) hS.1 hbs
    exact ⟨hf1, hf3, hf2, hb1, hb2⟩

/-- Witness for `irq_take_conditions_and_cause`: a U-mode hart with mie.MTIE
set and the timer line asserted takes the machine timer interrupt. -/
theorem irq_take_conditions_and_cause_witness :
    (c9Csr.xip &&& SIP_MASK = c9Csr.xip) ∧
      ((c9Csr.trap_check_enter_irq 0x123).isSome ↔ take_m c9Csr ∨ take_s c9Csr) :=
  ⟨by decide, (irq_take_conditions_and_cause c9Csr 0x123 (by decide)).1⟩

theorem shiftLeft_land_small (x k T : Nat) (hT : T < 2 ^ k) : (x <<< k) &&& T = 0 := by
  apply Nat.eq_of_testBit_eq
  intro i
  simp only [Nat.testBit_and, Nat.testBit_shiftLeft, Nat.zero_testBit]
  by_cases h : k ≤ i
  · have : T.testBit i = false := Nat.testBit_lt_two_pow (lt_of_lt_of_le hT (Nat.pow_le_pow_right (by omega) h))
    simp [this]
  · simp [h]

/-- C7 counterexample: at a compressed instruction (`c.nop`, low bits 01) in
the last halfword of Sv32 superpage 0, the step performs the fetch
translation of pc+2 and its page-walk sets the A bit of superpage 1's PTE:
memory word 0x2001 (the level-1 PTE of the pc+2 page, touched neither by the
fetch at pc nor by any data access of `c.nop`) changes from 0x09 to 0x49,
while the instruction itself completes without any fault. -/
theorem compressed_step_updates_next_page_pte :
    ((fetch_stage c7Core.csr c7Mem c7Core.pc).fetch0 = some 0x0001) ∧
    ((0x0001 : Nat) &&& 0x3 ≠ 0x3) ∧
    (c7Mem.words 0x2001 = some 0x09) ∧
    ((step c7Core c7Mem).2.words 0x2001 = some 0x49) ∧
    ((step c7Core c7Mem).1.pc = 0x400000) ∧
    ((step c7Core c7Mem).1.csr.mcause = 0) ∧
    ((step c7Core c7Mem).1.csr.scause = 0) := by
  refine ⟨by decide, by decide, by decide, by decide, by decide, by decide, by decide⟩

/-- C7 amended: for every step whose first fetched halfword has low bits
different from 11, the step still performs the fetch translation and 16-bit
read at pc + 2 (the memory leaving the fetch phase is the memory left by the
pc+2 page walk, whose A-bit update may change it), but a failed translation
or read at pc + 2 raises no fault: the step dispatches straight to the
compressed-instruction decoder. -/
theorem compressed_fetch_still_translates_pc2 :
    ∀ (c : Core) (m : Mem) (h0 : Nat),
      (fetch_stage c.csr m c.pc).fetch0 = some h0 →
      h0 &&& 0x3 ≠ 0x3 →
      (fetch_stage c.csr m c.pc).mem =
        (vmap_fetch c.csr (vmap_fetch c.csr m c.pc).2 (wadd c.pc 2)).2 ∧
      dispatch c (fetch_stage c.csr m c.pc) =
        (if (fetch_stage c.csr m c.pc).instr &&& 0x3 = 0x0 then
          exec_q0 c (fetch_stage c.csr m c.pc).mem (fetch_stage c.csr m c.pc).instr
        else if (fetch_stage c.csr m c.pc).instr &&& 0x3 = 0x1 then
          exec_q1 c (fetch_stage c.csr m c.pc).mem (fetch_stage c.csr m c.pc).instr
        else
          exec_q2 c (fetch_stage c.csr m c.pc).mem (fetch_stage c.csr m c.pc).instr) := by
  intro c m h0 hf0 hcomp
  refine ⟨rfl, ?_⟩
  have hp0 : (fetch_stage c.csr m c.pc).fetch_paddr0 ≠ none := by
    unfold fetch_stage at hf0 ⊢
    dsimp only [] at hf0 ⊢
    cases hv : (vmap_fetch c.csr m c.pc).1 with
    | none => rw [hv] at hf0; simp at hf0
    | some pa => simp
  have hgetD : (fetch_stage c.csr m c.pc).fetch0.getD 0 = h0 := by rw [hf0]; rfl
  have hinstr3 : (fetch_stage c.csr m c.pc).instr &&& 0x3 = h0 &&& 0x3 := by
    have hins : (fetch_stage c.csr m c.pc).instr =
        (fetch_stage c.csr m c.pc).fetch0.getD 0 |||
          ((fetch_stage c.csr m c.pc).fetch1.getD 0 <<< 16) := rfl
    rw [hins, hgetD, lor_land_distrib, shiftLeft_land_small _ 16 0x3 (by norm_num),
      Nat.or_zero]
  unfold dispatch
  rw [if_neg ?hc1, if_neg ?hc2, if_neg ?hc3]
  case hc1 =>
    push_neg
    refine ⟨hp0, ?_⟩
    intro _ h3
    rw [hgetD] at h3
    exact absurd h3 hcomp
  case hc2 =>
    push_neg
    refine ⟨by rw [hf0]; simp, ?_⟩
    intro h3
    rw [hgetD] at h3
    exact absurd h3 hcomp
  case hc3 =>
    rw [hinstr3]
    exact hcomp

/-- Witness for `compressed_fetch_still_translates_pc2` at the concrete
Sv32 state `c7Core`/`c7Mem`. -/
theorem compressed_fetch_still_translates_pc2_witness :
    ((fetch_stage c7Core.csr c7Mem c7Core.pc).fetch0 = some 0x0001) ∧
    ((0x0001 : Nat) &&& 0x3 ≠ 0x3) ∧
    ((fetch_stage c7Core.csr c7Mem c7Core.pc).mem =
      (vmap_fetch c7Core.csr (vmap_fetch c7Core.csr c7Mem c7Core.pc).2
        (wadd c7Core.pc 2)).2) :=
  ⟨by decide, by decide,
    (compressed_fetch_still_translates_pc2 c7Core c7Mem 0x0001 (by decide) (by decide)).1⟩

theorem no_irq_of_masked (s : RVCSR) (epc : Nat) (h : s.get_effective_xip &&& s.xie = 0) :
    s.trap_check_enter_irq epc = none := by
  unfold RVCSR.trap_check_enter_irq
  dsimp only []
  rw [h, Nat.zero_and, Nat.zero_and, Nat.zero_and, Nat.zero_and]
  simp

/-- C8: for every SC.W executed with translation off (identity translation),
an aligned address and a bus that accepts the write (and no IRQ pending to
intercept the commit), the SC succeeds iff `load_reserved` is true at SC
time: on success it writes rs2 to memory, writes 0 to rd, clears the
reservation and raises no fault; with no reservation it writes 1 to rd,
leaves memory and the reservation flag unchanged and raises no fault.
Together the two cases give the claim's two-SC scenario: a successful SC
leaves `load_reserved` false, so an immediately following SC.W writes 1 and
leaves memory unchanged. -/
theorem sc_w_success_iff_reservation :
    ∀ (c : Core) (m : Mem) (h0 h1 instr rs1v rs2v rd : Nat),
      instr = h0 ||| h1 <<< 16 →
      rs1v = c.regs ((instr >>> 15) &&& 0x1f) →
      rs2v = c.regs ((instr >>> 20) &&& 0x1f) →
      rd = (instr >>> 7) &&& 0x1f →
      c.csr.satp &&& SATP32_MODE = 0 →
      m.r16 c.pc = some h0 →
      m.r16 (wadd c.pc 2) = some h1 →
      instr &&& RVOPC_SC_W_MASK = RVOPC_SC_W_BITS →
      rs1v &&& 0x3 = 0 →
      m.wok (rs1v / 4) = true →
      c.csr.get_effective_xip &&& c.csr.xie = 0 →
      ((c.load_reserved = true →
        (∀ i, (step c m).2.words i =
          if i = rs1v / 4 then some (rs2v % M32) else m.words i) ∧
        (step c m).1.load_reserved = false ∧
        (rd ≠ 0 → (step c m).1.regs rd = 0) ∧
        (∀ i, i ≠ rd → (step c m).1.regs i = c.regs i) ∧
        (step c m).1.pc = wadd c.pc 4 ∧
        (step c m).1.csr.mcause = c.csr.mcause ∧
        (step c m).1.csr.scause = c.csr.scause ∧
        (step c m).1.csr.mepc = c.csr.mepc ∧
        (step c m).1.csr.priv = c.csr.priv) ∧
      (c.load_reserved = false →
        (∀ i, (step c m).2.words i = m.words i) ∧
        (step c m).1.load_reserved = false ∧
        (rd ≠ 0 → (step c m).1.regs rd = 1) ∧
        (∀ i, i ≠ rd → (step c m).1.regs i = c.regs i) ∧
        (step c m).1.pc = wadd c.pc 4 ∧
        (step c m).1.csr.mcause = c.csr.mcause ∧
        (step c m).1.csr.scause = c.csr.scause ∧
        (step c m).1.csr.mepc = c.csr.mepc ∧
        (step c m).1.csr.priv = c.csr.priv)) := by
  intro c m h0 h1 instr rs1v rs2v rd hins hrs1 hrs2 hrd hsatp hf0 hf1 hm halign hwok hirq
  have d1 : instr &&& 0x3 = 0x3 :=
    (land_of_match instr RVOPC_SC_W_MASK RVOPC_SC_W_BITS 0x3 hm (by decide)).trans (by decide)
  have d2 : (instr >>> 2) &&& 0x1f = 0xb :=
    (extract_of_match instr RVOPC_SC_W_MASK RVOPC_SC_W_BITS 0x1f 2 hm (by decide)).trans
      (by decide)
  have dLR : ¬(instr &&& RVOPC_LR_W_MASK = RVOPC_LR_W_BITS) := by
    intro hlr'
    have ha := land_of_match instr RVOPC_LR_W_MASK RVOPC_LR_W_BITS 0xf8000000 hlr' (by decide)
    have hb := land_of_match instr RVOPC_SC_W_MASK RVOPC_SC_W_BITS 0xf8000000 hm (by decide)
    rw [ha] at hb
    exact absurd hb (by decide)
  have hLRb : rvopcMatch instr RVOPC_LR_W_MASK RVOPC_LR_W_BITS = false := by
    simp [rvopcMatch]
    exact dLR
  have hSCb : rvopcMatch instr RVOPC_SC_W_MASK RVOPC_SC_W_BITS = true := by
    simp [rvopcMatch, hm]
  have htf : c.csr.translation_enabled_fetch = false := by
    unfold RVCSR.translation_enabled_fetch
    simp [hsatp]
  have htls : c.csr.translation_enabled_ls = false := by
    unfold RVCSR.translation_enabled_ls
    simp [hsatp]
  have hvml : vmap_ls c.csr m rs1v PTE_W = (some rs1v, m) := by
    unfold vmap_ls
    simp [htls]
  have hF : fetch_stage c.csr m c.pc =
      { fetch_paddr0 := some c.pc, fetch0 := some h0, fetch_paddr1 := some (wadd c.pc 2),
        fetch1 := some h1, instr := h0 ||| h1 <<< 16, mem := m } := by
    have hvm : ∀ a, vmap_fetch c.csr m a = (some a, m) := by
      intro a
      unfold vmap_fetch
      simp [htf]
    simp [fetch_stage, hvm, hf0, hf1]
  have hstep : step c m = writeback c instr (exec32 c m instr) := by
    unfold step
    rw [hF]
    dsimp only []
    rw [← hins]
    unfold dispatch
    dsimp only []
    rw [if_neg (by simp), if_neg (by simp), if_pos d1]
  have hnoirq : ∀ epc, c.csr.trap_check_enter_irq epc = none := fun epc =>
    no_irq_of_masked c.csr epc hirq
  constructor
  · -- reservation held: SC succeeds
    intro hlr
    have hexec : exec32 c m instr =
        { rd_wdata := some 0, pc_wdata := none, exception_cause := none, xtval_wdata := none,
          regnum_rd := rd, csr := c.csr, load_reserved := false,
          mem := { m with words := fun i =>
                    if i = rs1v / 4 then some (rs2v % M32) else m.words i } } := by
      unfold exec32
      dsimp only []
      rw [d2]
      rw [if_neg (by decide), if_neg (by decide), if_neg (by decide), if_neg (by decide),
        if_neg (by decide), if_pos (by decide : (0xb : Nat) = OPC_AMO)]
      rw [hLRb, hSCb]
      simp only [Bool.false_eq_true, if_false, if_true]
      rw [← hrs1, if_neg (fun h => h halign), hlr]
      simp only [if_true]
      rw [hvml]
      dsimp only []
      unfold Mem.w32
      rw [hwok]
      simp only [if_true]
      rw [← hrs2, ← hrd]
    rw [hstep, hexec]
    unfold writeback
    dsimp only []
    rw [hnoirq]
    dsimp only []
    refine ⟨fun i => rfl, rfl, ?_, ?_, ?_, rfl, rfl, rfl, rfl⟩
    · intro hrdnz
      simp [hrdnz]
    · intro i hine
      by_cases hrdz : rd = 0
      · simp [hrdz]
      · simp [hrdz, hine]
    · rw [if_pos d1]
  · -- no reservation: SC fails, rd gets 1, nothing else changes
    intro hlr
    have hexec : exec32 c m instr =
        { rd_wdata := some 1, pc_wdata := none, exception_cause := none, xtval_wdata := none,
          regnum_rd := rd, csr := c.csr, load_reserved := false, mem := m } := by
      unfold exec32
      dsimp only []
      rw [d2]
      rw [if_neg (by decide), if_neg (by decide), if_neg (by decide), if_neg (by decide),
        if_neg (by decide), if_pos (by decide : (0xb : Nat) = OPC_AMO)]
      rw [hLRb, hSCb]
      simp only [Bool.false_eq_true, if_false, if_true]
      rw [← hrs1, if_neg (fun h => h halign), hlr]
      simp only [Bool.false_eq_true, if_false]
      rw [← hrd]
    rw [hstep, hexec]
    unfold writeback
    dsimp only []
    rw [hnoirq]
    dsimp only []
    refine ⟨fun i => rfl, rfl, ?_, ?_, ?_, rfl, rfl, rfl, rfl⟩
    · intro hrdnz
      simp [hrdnz]
    · intro i hine
      by_cases hrdz : rd = 0
      · simp [hrdz]
      · simp [hrdz, hine]
    · rw [if_pos d1]

/-- Witness for `sc_w_success_iff_reservation`: `sc.w x3, x2, (x1)` at
0x100 with x1 = 0x200, x2 = 77 — once with the reservation held (succeeds,
x3 = 0, memory written) and once without (fails, x3 = 1, memory
untouched). -/
theorem sc_w_success_iff_reservation_witness :
    c8Core.load_reserved = true ∧
    (step c8Core c8Mem).1.load_reserved = false ∧
    (step c8Core c8Mem).1.regs 3 = 0 ∧
    (∀ i, (step c8Core c8Mem).2.words i =
      if i = 0x200 / 4 then some (77 % M32) else c8Mem.words i) ∧
    (step { c8Core with load_reserved := false } c8Mem).1.regs 3 = 1 ∧
    (∀ i, (step { c8Core with load_reserved := false } c8Mem).2.words i = c8Mem.words i) := by
  have hA := sc_w_success_iff_reservation c8Core c8Mem 0xa1af 0x1820 0x1820a1af 0x200 77 3
    (by decide) (by decide) (by decide) (by decide) (by decide) (by decide) (by decide)
    (by decide) (by decide) (by decide) (by decide)
  have hB := sc_w_success_iff_reservation { c8Core with load_reserved := false } c8Mem 0xa1af
    0x1820 0x1820a1af 0x200 77 3 (by decide) (by decide) (by decide) (by decide) (by decide)
    (by decide) (by decide) (by decide) (by decide) (by decide) (by decide)
  obtain ⟨hA1, -⟩ := hA
  obtain ⟨-, hB2⟩ := hB
  obtain ⟨w1, w2, w3, -⟩ := hA1 rfl
  obtain ⟨v1, -, v3, -⟩ := hB2 rfl
  exact ⟨rfl, w2, w3 (by decide), w1, v3 (by decide), v1⟩
